import Mathlib

/-!
Verification development for the OPD claim-adjudication pipeline.

The Python sources under app/ are shallowly embedded below:
pure functions become Lean functions, Python floats become rationals
(with the two-decimal rounding written explicitly where the source
calls round(x, 2)), Python dicts become structures whose optional keys
become Option fields, and the nondeterministic inputs of the workflow
(current time, generated UUID, the assistive LLM call of the limit
stage) become an explicit environment record.  Python's round uses
round-half-to-even, modelled by rhe below.
-/

namespace OPD

/-! ## Small string helpers (Python truthiness, substring tests) -/

/-- Is the first character list a leading segment of the second. -/
def listLead : List Char → List Char → Bool
  | [], _ => true
  | _ :: _, [] => false
  | a :: as, b :: bs => a == b && listLead as bs

/-- Is the first character list contained contiguously in the second. -/
def listSub (n : List Char) (h : List Char) : Bool :=
  match h with
  | [] => listLead n []
  | _ :: t => listLead n h || listSub n t

/-- Python "needle in hay" on strings. -/
def substr (needle hay : String) : Bool :=
  listSub needle.toList hay.toList

/-- Python truthiness of an optional string (None and "" are falsy). -/
def strTruthy (x : Option String) : Bool :=
  match x with
  | none => false
  | some s => s ≠ ""

/-- Python "x or d" for an optional string x. -/
def pyOrS (x : Option String) (d : String) : String :=
  match x with
  | none => d
  | some s => if s = "" then d else s

/-- Rendering of a number inside a message string.  Python f-string
numeric formatting is abstracted by the canonical rational rendering;
message text is otherwise translated verbatim. -/
def fmtQ (q : ℚ) : String := toString q

/-- First occurrence of each element is kept; models list(set(...)), whose
CPython iteration order is hash-dependent and is fixed here to first
occurrence. -/
def dedupKeepFirst (l : List String) : List String :=
  l.foldl (fun acc s => if s ∈ acc then acc else acc ++ [s]) []

/-! ## Rounding: Python round(x, 2) (round half to even) -/

/-- Round half to even to an integer, as Python round does on exact values. -/
def rhe (x : ℚ) : ℤ :=
  if x - ⌊x⌋ < 1/2 then ⌊x⌋
  else if 1/2 < x - ⌊x⌋ then ⌊x⌋ + 1
  else if ⌊x⌋ % 2 = 0 then ⌊x⌋ else ⌊x⌋ + 1

/-- round(x, 2): round half to even at two decimal places. -/
def round2 (x : ℚ) : ℚ := (rhe (x * 100) : ℚ) / 100

/-! ## Dates (datetime.strptime "%Y-%m-%d", subtraction, timedelta, strftime) -/

structure Date where
  y : ℤ
  m : ℤ
  d : ℤ
deriving DecidableEq

def isLeap (y : ℤ) : Bool := y % 4 == 0 && (y % 100 != 0 || y % 400 == 0)

def daysInMonth (y m : ℤ) : ℤ :=
  if m = 1 ∨ m = 3 ∨ m = 5 ∨ m = 7 ∨ m = 8 ∨ m = 10 ∨ m = 12 then 31
  else if m = 4 ∨ m = 6 ∨ m = 9 ∨ m = 11 then 30
  else if isLeap y then 29 else 28

def allDigits (s : String) : Bool := s.length > 0 && s.toList.all Char.isDigit

def digitsToNat (s : String) : ℕ :=
  s.foldl (fun a c => a * 10 + (c.toNat - 48)) 0

/-- datetime.strptime(s, "%Y-%m-%d"): three dash-separated numeric fields
with a calendar-valid month and day; failure (ValueError) is none. -/
def parseDate (s : String) : Option Date :=
  match s.splitOn "-" with
  | [ys, ms, ds] =>
    if allDigits ys && allDigits ms && allDigits ds && ys.length ≤ 4 then
      let y : ℤ := digitsToNat ys
      let m : ℤ := digitsToNat ms
      let d : ℤ := digitsToNat ds
      if 1 ≤ m ∧ m ≤ 12 ∧ 1 ≤ d ∧ d ≤ daysInMonth y m then some ⟨y, m, d⟩
      else none
    else none
  | _ => none

/-- Day number of a civil date (Hinnant's days_from_civil, epoch 1970-01-01). -/
def toDays (dt : Date) : ℤ :=
  let y := if dt.m ≤ 2 then dt.y - 1 else dt.y
  let era := Int.fdiv y 400
  let yoe := y - era * 400
  let mp := (dt.m + 9) % 12
  let doy := (153 * mp + 2) / 5 + dt.d - 1
  let doe := yoe * 365 + yoe / 4 - yoe / 100 + doy
  era * 146097 + doe - 719468

/-- Civil date from a day number (Hinnant's civil_from_days). -/
def fromDays (z0 : ℤ) : Date :=
  let z := z0 + 719468
  let era := Int.fdiv z 146097
  let doe := z - era * 146097
  let yoe := (doe - doe / 1460 + doe / 36524 - doe / 146096) / 365
  let y := yoe + era * 400
  let doy := doe - (365 * yoe + yoe / 4 - yoe / 100)
  let mp := (5 * doy + 2) / 153
  let d := doy - (153 * mp + 2) / 5 + 1
  let m := if mp < 10 then mp + 3 else mp - 9
  ⟨if m ≤ 2 then y + 1 else y, m, d⟩

/-- Python date.weekday(): Monday = 0 .. Sunday = 6. -/
def weekdayPy (dt : Date) : ℤ := (toDays dt + 3) % 7

/-- dt + timedelta(days = n). -/
def addDays (dt : Date) (n : ℤ) : Date := fromDays (toDays dt + n)

def pad2 (n : ℤ) : String := if n < 10 then "0" ++ toString n else toString n

def pad4 (n : ℤ) : String :=
  if n < 10 then "000" ++ toString n
  else if n < 100 then "00" ++ toString n
  else if n < 1000 then "0" ++ toString n
  else toString n

/-- strftime("%Y-%m-%d"). -/
def formatDate (dt : Date) : String :=
  pad4 dt.y ++ "-" ++ pad2 dt.m ++ "-" ++ pad2 dt.d

/-! ## Policy configuration (app/tools/policy_tools.py)

The JSON policy document is flattened to the fields the code actually
reads; every field default is the literal default written at its
get(...) call in policy_tools.py (used when docs/policy_terms.json is
absent or lacks the key). -/

structure Policy where
  annual_limit : ℚ := 50000
  per_claim_limit : ℚ := 5000
  minimum_claim_amount : ℚ := 500
  consultation_sub_limit : ℚ := 2000
  consultation_copay_percentage : ℚ := 10
  consultation_network_discount : ℚ := 20
  diagnostic_sub_limit : ℚ := 10000
  pharmacy_sub_limit : ℚ := 15000
  pharmacy_branded_copay : ℚ := 30
  dental_sub_limit : ℚ := 10000
  vision_sub_limit : ℚ := 5000
  alternative_medicine_sub_limit : ℚ := 8000
  exclusions : List String := []
  network_hospitals : List String := []
  initial_waiting : ℤ := 30
  diabetes_waiting : ℤ := 90
  hypertension_waiting : ℤ := 90
  joint_replacement_waiting : ℤ := 730
deriving DecidableEq

/-- The configuration obtained when the policy file is missing: every
get_... helper falls back to its coded default. -/
def defaultPolicy : Policy := {}

/-- The dict returned by get_sub_limits(category): only the keys the
consumers look up (limit, copay_percentage, network_discount); a key
absent from the category's entry — or, for an unknown category, absent
from the top level of the full table — is none. -/
structure SubLimitLookup where
  limit : Option ℚ
  copay_percentage : Option ℚ
  network_discount : Option ℚ
deriving DecidableEq

/-- policy_tools.get_sub_limits.  Only the consultation entry carries
copay_percentage / network_discount keys; an unknown category returns
the whole table, which has none of the three keys at top level. -/
def get_sub_limits (p : Policy) (category : String) : SubLimitLookup :=
  if category = "consultation" then
    ⟨some p.consultation_sub_limit, some p.consultation_copay_percentage,
      some p.consultation_network_discount⟩
  else if category = "diagnostic" then ⟨some p.diagnostic_sub_limit, none, none⟩
  else if category = "pharmacy" then ⟨some p.pharmacy_sub_limit, none, none⟩
  else if category = "dental" then ⟨some p.dental_sub_limit, none, none⟩
  else if category = "vision" then ⟨some p.vision_sub_limit, none, none⟩
  else if category = "alternative_medicine" then
    ⟨some p.alternative_medicine_sub_limit, none, none⟩
  else ⟨none, none, none⟩

/-- The dict returned by policy_tools.calculate_copay. -/
structure CopayInfo where
  copay_amount : ℚ
  copay_percentage : ℚ
  network_discount : ℚ
  network_discount_percentage : ℚ
  payable_amount : ℚ
deriving DecidableEq

/-- policy_tools.calculate_copay. -/
def calculate_copay (p : Policy) (amount : ℚ) (category : String)
    (is_network : Bool) : CopayInfo :=
  let sub_limits := get_sub_limits p category
  let copay_percentage := sub_limits.copay_percentage.getD 10
  let network_discount_percentage :=
    if is_network then sub_limits.network_discount.getD 20 else 0
  let copay_amount := amount * (copay_percentage / 100)
  let network_discount := amount * (network_discount_percentage / 100)
  ⟨round2 copay_amount, copay_percentage, round2 network_discount,
    network_discount_percentage, round2 (amount - copay_amount - network_discount)⟩

/-- policy_tools.is_network_hospital: case-insensitive two-way substring
match against the network list; falsy names are not in network. -/
def is_network_hospital (p : Policy) (hospital_name : Option String) : Bool :=
  match hospital_name with
  | none => false
  | some h =>
    if h = "" then false
    else
      let hl := h.toLower
      p.network_hospitals.any fun n => substr n.toLower hl || substr hl n.toLower

/-- policy_tools.check_pre_authorization_required: keyword tests need
pre-authorization only above the 10000 threshold. -/
def check_pre_authorization_required (test_name : String) (amount : ℚ) : Bool :=
  let test_lower := test_name.toLower
  (["mri", "ct scan", "pet scan"].any fun t => substr t test_lower) &&
    decide (amount > 10000)

def alt_medicine_keywords : List String :=
  ["ayurveda", "ayurvedic", "homeopathy", "unani", "panchakarma", "yoga therapy"]

def deficiency_keywords : List String :=
  ["deficiency", "anemia", "scurvy", "rickets", "malnutrition"]

def wellness_keywords : List String :=
  ["wellness", "prevention", "supplement", "general health", "boost"]

/-- The exclusion_keywords dict of check_exclusions, in insertion order,
with the fallback message string the f-string would produce for the
group (exclusion_type.replace underscore-with-space, title case). -/
def exclusion_keyword_groups : List (List String × String) :=
  [(["cosmetic", "whitening", "aesthetic", "beauty", "bleaching"],
      "Cosmetic procedures/treatments"),
   (["weight loss", "obesity", "bariatric", "diet plan", "slimming"],
      "Weight Loss procedures/treatments"),
   (["infertility", "ivf", "fertility"], "Infertility procedures/treatments"),
   (["experimental", "unproven", "clinical trial"],
      "Experimental procedures/treatments"),
   (["self-inflicted", "self inflicted", "suicide"],
      "Self Inflicted procedures/treatments"),
   (["adventure sports", "bungee", "skydiving", "paragliding"],
      "Adventure Sports procedures/treatments"),
   (["alcoholism", "drug abuse", "addiction", "substance"],
      "Alcohol Drugs procedures/treatments")]

/-- The keyword-group scan at the end of check_exclusions: the first
matching keyword wins; the policy exclusion list is searched for a line
containing that keyword, with the group message as fallback. -/
def findExclusion (excls : List String) (groups : List (List String × String))
    (tl dl : String) : Bool × String :=
  match groups with
  | [] => (false, "")
  | (kws, msg) :: rest =>
    match kws.find? (fun kw => substr kw tl || substr kw dl) with
    | some kw =>
      match excls.find? (fun e => substr kw e.toLower) with
      | some e => (true, e)
      | none => (true, msg)
    | none => findExclusion excls rest tl dl

/-- policy_tools.check_exclusions. -/
def check_exclusions (p : Policy) (treatment : String) (diagnosis : Option String) :
    Bool × String :=
  let treatment_lower := treatment.toLower
  let diagnosis_lower := (diagnosis.getD "").toLower
  if alt_medicine_keywords.any
      (fun kw => substr kw treatment_lower || substr kw diagnosis_lower) then
    (false, "")
  else if substr "vitamin" treatment_lower || substr "supplement" treatment_lower then
    if deficiency_keywords.any (fun kw => substr kw diagnosis_lower) then (false, "")
    else if wellness_keywords.any (fun kw => substr kw diagnosis_lower) then
      (true, "Vitamins and supplements (unless prescribed for deficiency)")
    else (false, "")
  else
    findExclusion p.exclusions exclusion_keyword_groups treatment_lower diagnosis_lower

/-! ## Claim submission data (the claim_data dict and its documents) -/

structure Prescription where
  doctor_name : Option String := none
  doctor_reg : Option String := none
  diagnosis : Option String := none
  medicines_prescribed : List String := []
  tests_prescribed : List String := []
  procedures : List String := []
  treatment : Option String := none
deriving DecidableEq

structure Bill where
  hospital_name : Option String := none
  consultation_fee : ℚ := 0
  medicines : ℚ := 0
  diagnostic_tests : ℚ := 0
  teeth_whitening : ℚ := 0
  diet_plan : ℚ := 0
  cosmetic : ℚ := 0
  root_canal : ℚ := 0
  therapy_charges : ℚ := 0
deriving DecidableEq

structure Documents where
  prescription : Option Prescription := none
  bill : Option Bill := none
deriving DecidableEq

/-- The claim_data dict.  treatment_date is taken as present (the spec
data model requires a treatment date; eligibility would raise on None).
pre_auth_obtained may be supplied by the caller but is never read by
any pipeline stage. -/
structure ClaimData where
  claim_id : Option String := none
  member_id : Option String := none
  member_name : Option String := none
  treatment_date : String := ""
  claim_amount : ℚ := 0
  hospital : Option String := none
  category : Option String := none
  cashless_request : Bool := false
  member_join_date : Option String := none
  previous_claims_same_day : ℕ := 0
  previous_claims_ytd : ℚ := 0
  pre_auth_obtained : Bool := false
  documents : Documents := {}
deriving DecidableEq

/-- The extracted_data sub-dict of the extraction result. -/
structure ExtractedData where
  diagnosis : Option String := none
  medicines : List String := []
  tests : List String := []
  procedures : List String := []
deriving DecidableEq

/-- The document-extraction stage output consumed by the pipeline
(spec section 6: extraction is an external collaborator). -/
structure ExtractionResult where
  has_prescription : Bool := true
  has_bill : Bool := true
  extracted_data : ExtractedData := {}
  confidence_score : Option ℚ := none
deriving DecidableEq

/-! ## Fraud detection (app/tools/fraud_detection.py) -/

def state_codes : List String :=
  ["AP", "AR", "AS", "BR", "CG", "GA", "GJ", "HR", "HP", "JH", "JK",
   "KA", "KL", "MP", "MH", "MN", "ML", "MZ", "NL", "OD", "PB", "RJ",
   "SK", "TN", "TS", "TR", "UP", "UK", "WB", "AN", "CH", "DN", "DD",
   "DL", "LD", "PY"]

/-- A regex character class [A-Z]{2}. -/
def isUpperAlpha2 (s : String) : Bool :=
  s.length == 2 && s.toList.all fun c => c.isUpper

/-- A regex \d{lo,hi} component. -/
def digitsBetween (s : String) (lo hi : ℕ) : Bool :=
  decide (lo ≤ s.length) && decide (s.length ≤ hi) && s.toList.all Char.isDigit

/-- The year and (for allopathic) state validation shared by the four
registration patterns of validate_doctor_registration. -/
def regFinishCheck (currentYear : ℤ) (ys state : String) (requireState : Bool)
    (mtype : String) : Bool × String :=
  if requireState && !(state_codes.contains state) then
    (false, "Invalid state code: " ++ state)
  else
    let year : ℤ := digitsToNat ys
    if year < 1950 ∨ year > currentYear then
      (false, "Invalid registration year: " ++ toString year)
    else (true, "Valid " ++ mtype ++ " registration")

/-- fraud_detection.validate_doctor_registration.  The four anchored
regex patterns are decomposed on the slash separator; they are tried in
source order (allopathic has three fields, the rest four). -/
def validate_doctor_registration (currentYear : ℤ) (reg_number : String) :
    Bool × String :=
  if reg_number = "" then (false, "Doctor registration number is missing")
  else
    let reg := reg_number.trim.toUpper
    match reg.splitOn "/" with
    | [st, num, yr] =>
      if isUpperAlpha2 st && digitsBetween num 4 6 && digitsBetween yr 4 4 then
        regFinishCheck currentYear yr st true "Allopathic"
      else (false, "Registration number format not recognized")
    | [w, st, num, yr] =>
      if w = "AYUR" && isUpperAlpha2 st && digitsBetween num 3 5 &&
          digitsBetween yr 4 4 then
        regFinishCheck currentYear yr st false "Ayurvedic"
      else if w = "HOM" && isUpperAlpha2 st && digitsBetween num 3 5 &&
          digitsBetween yr 4 4 then
        regFinishCheck currentYear yr st false "Homeopathic"
      else if isUpperAlpha2 w && st = "D" && digitsBetween num 3 5 &&
          digitsBetween yr 4 4 then
        regFinishCheck currentYear yr w false "Dental"
      else (false, "Registration number format not recognized")
    | _ => (false, "Registration number format not recognized")

/-- Python a % 500 == 0 on an exact amount. -/
def isMultipleOf500 (a : ℚ) : Bool := (a / 500).den == 1

/-- The flag list and the additive (uncapped) risk score accumulated by
check_fraud_indicators, check by check in source order. -/
def fraud_signals (currentYear : ℤ) (claim_data : ClaimData)
    (previous_claims_same_day : ℕ) (previous_claims_ytd : ℚ)
    (annual_limit : ℚ) : List String × ℚ :=
  let claim_amount := claim_data.claim_amount
  let treatment_date := claim_data.treatment_date
  let documents := claim_data.documents
  -- Check 1: multiple claims on same day
  let f1 : List String :=
    if previous_claims_same_day ≥ 3 then ["Multiple claims on same day (3+)"]
    else if previous_claims_same_day ≥ 2 then ["Multiple claims on same day"]
    else []
  let r1 : ℚ :=
    if previous_claims_same_day ≥ 3 then 0.3
    else if previous_claims_same_day ≥ 2 then 0.15
    else 0
  -- Check 2: high utilization rate
  let utilization_rate :=
    if annual_limit > 0 then (previous_claims_ytd + claim_amount) / annual_limit else 0
  let f2 : List String :=
    if utilization_rate > 0.9 then ["Near annual limit exhaustion"] else []
  let r2 : ℚ := if utilization_rate > 0.9 then 0.1 else 0
  -- Check 3: close to the (hard-coded 5000) per-claim limit
  let f3 : List String :=
    if claim_amount > 5000 * 0.95 then ["Claim amount very close to per-claim limit"]
    else []
  let r3 : ℚ := if claim_amount > 5000 * 0.95 then 0.1 else 0
  -- Check 4: prescription data
  let f4 : List String :=
    match documents.prescription with
    | none => []
    | some prescription =>
      let v := (validate_doctor_registration currentYear
        (prescription.doctor_reg.getD "")).1
      (if !v then ["Invalid or suspicious doctor registration"] else []) ++
        (if prescription.medicines_prescribed.length > 10 then
          ["Unusually high number of medicines prescribed"]
        else [])
  let r4 : ℚ :=
    match documents.prescription with
    | none => 0
    | some prescription =>
      let v := (validate_doctor_registration currentYear
        (prescription.doctor_reg.getD "")).1
      (if !v then 0.25 else 0) +
        (if prescription.medicines_prescribed.length > 10 then 0.1 else 0)
  -- Check 5: bill anomalies (round-number amounts)
  let f5 : List String :=
    match documents.bill with
    | none => []
    | some bill =>
      let amounts := [bill.consultation_fee, bill.medicines, bill.diagnostic_tests]
      let round_amounts :=
        (amounts.filter fun a => decide (a > 0) && isMultipleOf500 a).length
      if round_amounts ≥ 2 then ["Multiple round number amounts in bill"] else []
  let r5 : ℚ :=
    match documents.bill with
    | none => 0
    | some bill =>
      let amounts := [bill.consultation_fee, bill.medicines, bill.diagnostic_tests]
      let round_amounts :=
        (amounts.filter fun a => decide (a > 0) && isMultipleOf500 a).length
      if round_amounts ≥ 2 then 0.05 else 0
  -- Check 6: weekend treatment for non-emergency
  let is_emergency_diag : Bool :=
    let diagnosis :=
      (match documents.prescription with
       | some prescription => prescription.diagnosis.getD ""
       | none => "").toLower
    ["emergency", "accident", "acute", "severe", "critical"].any
      fun kw => substr kw diagnosis
  let f6 : List String :=
    match parseDate treatment_date with
    | none => []
    | some dt =>
      if weekdayPy dt ≥ 5 then
        if !is_emergency_diag then ["Non-emergency treatment on weekend"] else []
      else []
  let r6 : ℚ :=
    match parseDate treatment_date with
    | none => 0
    | some dt =>
      if weekdayPy dt ≥ 5 then (if !is_emergency_diag then 0.05 else 0) else 0
  (f1 ++ f2 ++ f3 ++ f4 ++ f5 ++ f6, r1 + r2 + r3 + r4 + r5 + r6)

structure FraudResult where
  is_suspicious : Bool
  fraud_flags : List String
  risk_score : ℚ
  recommend_manual_review : Bool
  notes : String
deriving DecidableEq

/-- fraud_detection.check_fraud_indicators.  The manual-review
recommendation is taken from the uncapped additive score; the returned
risk score is capped at 1 and rounded to two decimals. -/
def check_fraud_indicators (currentYear : ℤ) (claim_data : ClaimData)
    (previous_claims_same_day : ℕ) (previous_claims_ytd : ℚ)
    (annual_limit : ℚ) : FraudResult :=
  let fr := fraud_signals currentYear claim_data previous_claims_same_day
    previous_claims_ytd annual_limit
  let flags := fr.1
  let raw := fr.2
  let recommend_manual_review :=
    decide (raw ≥ 0.35) || decide (flags.length ≥ 3)
  let risk_score := min raw 1
  ⟨decide (risk_score ≥ 0.35), flags, round2 risk_score, recommend_manual_review,
    if flags.isEmpty then "No fraud indicators detected."
    else "Risk score: " ++ fmtQ (round2 risk_score) ++ ". " ++
      toString flags.length ++ " fraud indicator(s) detected."⟩

/-! ## Eligibility (app/agents/eligibility_checker.py) -/

structure EligResult where
  is_eligible : Bool
  policy_active : Option Bool
  waiting_period_satisfied : Option Bool
  member_covered : Option Bool
  rejection_reasons : List String
  waiting_period_end_date : Option String
  notes : String
  confidence_score : ℚ
deriving DecidableEq

/-- The condition_waiting_map dict of check_eligibility, in insertion
order: (keyword, display name used in the note, waiting days). -/
def condition_waiting_map (p : Policy) : List (String × String × ℤ) :=
  [("diabetes", "Diabetes", p.diabetes_waiting),
   ("type 2 diabetes", "Diabetes", p.diabetes_waiting),
   ("type 1 diabetes", "Diabetes", p.diabetes_waiting),
   ("hypertension", "Hypertension", p.hypertension_waiting),
   ("blood pressure", "Hypertension", p.hypertension_waiting),
   ("high bp", "Hypertension", p.hypertension_waiting),
   ("joint replacement", "Joint Replacement", p.joint_replacement_waiting),
   ("knee replacement", "Joint Replacement", p.joint_replacement_waiting),
   ("hip replacement", "Joint Replacement", p.joint_replacement_waiting),
   ("arthroplasty", "Joint Replacement", p.joint_replacement_waiting)]

/-- eligibility_checker.check_eligibility (member id and name are
accepted and ignored, as in the source). -/
def check_eligibility (p : Policy) (_member_id _member_name : Option String)
    (treatment_date : String) (diagnosis : String)
    (member_join_date : Option String) (policy_start_date : String) : EligResult :=
  let joinStr := pyOrS member_join_date policy_start_date
  match parseDate treatment_date, parseDate joinStr with
  | some treatment_dt, some join_dt =>
    let days_since_join := toDays treatment_dt - toDays join_dt
    let initial_waiting := p.initial_waiting
    if days_since_join < initial_waiting then
      let eligible_from := addDays join_dt initial_waiting
      ⟨false, some true, some false, some true, ["WAITING_PERIOD"],
        some (formatDate eligible_from),
        "Initial waiting period not satisfied. " ++
          toString (initial_waiting - days_since_join) ++ " days remaining.",
        0.98⟩
    else
      let diagnosis_lower := diagnosis.toLower
      match (condition_waiting_map p).find?
          (fun e => substr e.1 diagnosis_lower && decide (days_since_join < e.2.2)) with
      | some e =>
        let eligible_from := addDays join_dt e.2.2
        ⟨false, some true, some false, some true, ["WAITING_PERIOD"],
          some (formatDate eligible_from),
          e.2.1 ++ " has " ++ toString e.2.2 ++ "-day waiting period. Eligible from " ++
            formatDate eligible_from,
          0.96⟩
      | none =>
        ⟨true, some true, some true, some true, [], none,
          "All eligibility criteria satisfied", 0.95⟩
  | _, _ =>
    ⟨false, none, none, none, ["INVALID_DATE"], none,
      "Invalid date format provided", 1⟩

/-! ## Environment: the nondeterministic inputs of a pipeline run -/

/-- The parsed JSON fields of the limit-calculator agent reply that
calculate_limits_with_agent reads.  none for a field means the key is
absent from the reply. -/
structure AgentLimitReply where
  approved_amount : Option ℚ := none
  notes : Option String := none
  confidence_score : Option ℚ := none
deriving DecidableEq

/-- The run environment: datetime.now() (as strftime result, date and
year), the uuid4 draw, and the assistive limit-agent outcome (none
models the agent call raising, in which case the note records str(e)
as agentErrMsg). -/
structure Env where
  nowTimestamp : String
  uuid8 : String
  today : Date
  currentYear : ℤ
  limitAgent : Option AgentLimitReply := none
  agentErrMsg : String := ""
deriving DecidableEq

/-- claim_adjudication.generate_claim_id. -/
def generate_claim_id (e : Env) : String :=
  "CLM_" ++ e.nowTimestamp ++ "_" ++ e.uuid8

/-- eligibility_checker.check_eligibility_with_agent: default join date
is one year before today when the claim omits it; the rule-based result
is returned directly. -/
def check_eligibility_with_agent (p : Policy) (e : Env) (claim_data : ClaimData)
    (extracted_data : ExtractionResult) : EligResult :=
  let diagnosis := extracted_data.extracted_data.diagnosis.getD ""
  let member_join_date :=
    if strTruthy claim_data.member_join_date then claim_data.member_join_date.getD ""
    else formatDate (addDays e.today (-365))
  check_eligibility p claim_data.member_id claim_data.member_name
    claim_data.treatment_date diagnosis (some member_join_date) "2024-01-01"

/-! ## Coverage (app/agents/coverage_validator.py) -/

structure CovResult where
  is_covered : Bool
  covered_items : List String
  excluded_items : List String
  pre_auth_required : Bool
  pre_auth_obtained : Bool
  applicable_sub_limit : ℚ
  category : String
  rejection_reasons : List String
  notes : String
  confidence_score : ℚ
deriving DecidableEq

/-- The mutable loop state of validate_coverage. -/
structure CovAcc where
  covered : List String
  excluded : List String
  rejections : List String
  pre_auth_required : Bool
deriving DecidableEq

/-- One iteration of the items loop of validate_coverage. -/
def coverageItemStep (p : Policy) (diagnosis : String) (acc : CovAcc)
    (item : String) : CovAcc :=
  if item = "" then acc
  else
    let item_lower := item.toLower
    if ["ayurveda", "ayurvedic", "homeopathy", "unani", "panchakarma"].any
        (fun kw => substr kw item_lower) then
      { acc with covered := acc.covered ++ [item] }
    else
      let ex := check_exclusions p item (some diagnosis)
      if ex.1 then
        let reason_lower := ex.2.toLower
        let code :=
          if substr "cosmetic" reason_lower || substr "whitening" item_lower then
            "COSMETIC_PROCEDURE"
          else if substr "weight" reason_lower || substr "obesity" item_lower ||
              substr "diet plan" item_lower then
            "SERVICE_NOT_COVERED"
          else "EXCLUDED_CONDITION"
        { acc with
          excluded := acc.excluded ++ [item ++ " - " ++ ex.2],
          rejections :=
            if code ∈ acc.rejections then acc.rejections
            else acc.rejections ++ [code] }
      else { acc with covered := acc.covered ++ [item] }

/-- One iteration of the medicines loop of validate_coverage (every
branch, including the vitamin leniency branches, covers the medicine). -/
def coverageMedStep (diag_is_deficiency : Bool) (acc : CovAcc) (med : String) :
    CovAcc :=
  if med = "" then acc
  else
    let med_lower := med.toLower
    if substr "vitamin" med_lower || substr "supplement" med_lower then
      if diag_is_deficiency then { acc with covered := acc.covered ++ [med] }
      else { acc with covered := acc.covered ++ [med] }
    else { acc with covered := acc.covered ++ [med] }

/-- One iteration of the tests loop of validate_coverage. -/
def coverageTestStep (claim_amount : ℚ) (pre_auth_obtained : Bool) (acc : CovAcc)
    (test : String) : CovAcc :=
  if test = "" then acc
  else if check_pre_authorization_required test claim_amount then
    if !pre_auth_obtained then
      { acc with
        pre_auth_required := true,
        rejections :=
          if "PRE_AUTH_MISSING" ∈ acc.rejections then acc.rejections
          else acc.rejections ++ ["PRE_AUTH_MISSING"],
        excluded := acc.excluded ++ [test ++ " - requires pre-authorization"] }
    else { acc with pre_auth_required := true, covered := acc.covered ++ [test] }
  else { acc with covered := acc.covered ++ [test] }

/-- Python "kw in str(l).lower()" for a list of strings: some element
contains the keyword (list reprs are matched elementwise here; the
keywords used never contain repr punctuation). -/
def strListContains (l : List String) (kw : String) : Bool :=
  l.any fun s => substr kw s.toLower

/-- coverage_validator.validate_coverage. -/
def validate_coverage (p : Policy) (diagnosis : String)
    (treatments procedures medicines tests : List String) (claim_amount : ℚ)
    (category : Option String) (pre_auth_obtained : Bool) : CovResult :=
  let all_items := treatments ++ procedures ++
    (if diagnosis ≠ "" then [diagnosis] else [])
  let diagnosis_lower := diagnosis.toLower
  let is_deficiency_treatment :=
    deficiency_keywords.any fun kw => substr kw diagnosis_lower
  let acc0 : CovAcc := ⟨[], [], [], false⟩
  let acc1 := all_items.foldl (coverageItemStep p diagnosis) acc0
  let acc2 := medicines.foldl (coverageMedStep is_deficiency_treatment) acc1
  let acc3 := tests.foldl (coverageTestStep claim_amount pre_auth_obtained) acc2
  let catSub : String × ℚ :=
    if strTruthy category then
      (category.getD "", (get_sub_limits p (category.getD "")).limit.getD 5000)
    else if (all_items.any fun item => substr "dental" item.toLower) ||
        (["root canal", "extraction", "filling"].any fun proc =>
          strListContains all_items proc) then
      ("dental", (get_sub_limits p "dental").limit.getD 10000)
    else if (["ayur", "homeo", "unani"].any fun med =>
          strListContains medicines med) ||
        substr "ayur" diagnosis_lower ||
        strListContains all_items "panchakarma" then
      ("alternative_medicine",
        (get_sub_limits p "alternative_medicine").limit.getD 8000)
    else if tests.length > 0 then
      ("diagnostic", (get_sub_limits p "diagnostic").limit.getD 10000)
    else if medicines.length > 0 then
      ("pharmacy", (get_sub_limits p "pharmacy").limit.getD 15000)
    else ("consultation", (get_sub_limits p "consultation").limit.getD 2000)
  let is_covered := acc3.rejections.isEmpty
  let notes :=
    if is_covered then "All items covered under " ++ catSub.1 ++ " category"
    else "Coverage issues: " ++ String.intercalate ", " acc3.rejections ++
      (if !acc3.excluded.isEmpty then
        ". Excluded: " ++ String.intercalate ", " (acc3.excluded.take 3)
      else "")
  ⟨is_covered, acc3.covered, acc3.excluded, acc3.pre_auth_required,
    pre_auth_obtained, catSub.2, catSub.1, acc3.rejections, notes,
    if is_covered then 0.92 else 0.95⟩

/-- coverage_validator.validate_coverage_with_agent.  Note that the call
to validate_coverage omits pre_auth_obtained, so it always defaults to
False. -/
def validate_coverage_with_agent (p : Policy) (claim_data : ClaimData)
    (extracted_data : ExtractionResult) : CovResult :=
  let ext_data := extracted_data.extracted_data
  let diagnosis0 := ext_data.diagnosis.getD ""
  let medicines := ext_data.medicines
  let tests := ext_data.tests
  let procedures := ext_data.procedures
  let prescription := claim_data.documents.prescription.getD {}
  let presc_procedures := prescription.procedures
  let presc_treatment := prescription.treatment.getD ""
  let presc_medicines := prescription.medicines_prescribed
  let treatments := presc_procedures ++
    (if presc_treatment ≠ "" then [presc_treatment] else [])
  let all_medicines := dedupKeepFirst (medicines ++ presc_medicines)
  let diagnosis :=
    if diagnosis0 = "" then prescription.diagnosis.getD "" else diagnosis0
  let diagnosis_lower := diagnosis.toLower
  let category : Option String :=
    if strTruthy claim_data.category then claim_data.category
    else if ["ayurveda", "ayurvedic", "homeopathy", "unani", "panchakarma"].any
        (fun kw => substr kw diagnosis_lower) then some "alternative_medicine"
    else if ["ayurveda", "panchakarma", "homeopathy"].any
        (fun kw => strListContains treatments kw) then some "alternative_medicine"
    else claim_data.category
  validate_coverage p diagnosis treatments procedures all_medicines tests
    claim_data.claim_amount category false

/-! ## Limit calculation (app/agents/limit_calculator.py) -/

/-- Python str(x) on an optional string (None prints as None). -/
def pyStr (o : Option String) : String :=
  match o with
  | none => "None"
  | some s => s

/-- The deductions_breakdown sub-dict. -/
structure DeductionsBreakdown where
  copay : ℚ
  network_discount : ℚ
  excluded_items : ℚ
deriving DecidableEq

/-- The below-minimum early-return dict of calculate_limits: it carries
only these keys (in particular no per_claim_exceeded key). -/
structure LimitMinimal where
  within_limits : Bool
  claim_amount : ℚ
  approved_amount : ℚ
  rejection_reasons : List String
  notes : String
  confidence_score : ℚ
deriving DecidableEq

/-- The full result dict of calculate_limits. -/
structure LimitResult where
  within_limits : Bool
  claim_amount : ℚ
  eligible_amount : ℚ
  approved_amount : ℚ
  copay_amount : ℚ
  copay_percentage : ℚ
  network_discount : ℚ
  excluded_amount : ℚ
  per_claim_limit : ℚ
  annual_limit : ℚ
  applicable_sub_limit : ℚ
  remaining_annual_limit : ℚ
  per_claim_exceeded : Bool
  annual_limit_exceeded : Bool
  sub_limit_exceeded : Bool
  is_network_hospital : Bool
  rejection_reasons : List String
  deductions_breakdown : DeductionsBreakdown
  notes : String
  confidence_score : ℚ
deriving DecidableEq

/-- calculate_limits returns one of two dict shapes. -/
inductive LimitOut
  | belowMin (r : LimitMinimal)
  | full (r : LimitResult)
deriving DecidableEq

/-- limit_calculator.calculate_limits. -/
def calculate_limits (p : Policy) (claim_amount : ℚ) (category : Option String)
    (hospital_name : Option String) (excluded_amount : ℚ)
    (previous_claims_ytd : ℚ) (sub_limit : Option ℚ) : LimitOut :=
  let per_claim_limit := p.per_claim_limit
  let annual_limit := p.annual_limit
  let min_claim_amount := p.minimum_claim_amount
  if claim_amount < min_claim_amount then
    .belowMin ⟨false, claim_amount, 0, ["BELOW_MIN_AMOUNT"],
      "Claim amount ₹" ++ fmtQ claim_amount ++
        " is below minimum threshold of ₹" ++ fmtQ min_claim_amount, 1⟩
  else
    let eligible_amount := claim_amount - excluded_amount
    let sub :=
      match sub_limit with
      | some s => s
      | none =>
        if strTruthy category then
          (get_sub_limits p (category.getD "")).limit.getD per_claim_limit
        else per_claim_limit
    let per_claim_exceeded := decide (eligible_amount > per_claim_limit)
    let remaining_annual := annual_limit - previous_claims_ytd
    let annual_limit_exceeded := decide (eligible_amount > remaining_annual)
    let sub_limit_exceeded := decide (eligible_amount > sub)
    let rejection_reasons :=
      (if per_claim_exceeded then ["PER_CLAIM_EXCEEDED"] else []) ++
      (if annual_limit_exceeded then ["ANNUAL_LIMIT_EXCEEDED"] else [])
    let approved_amount :=
      max (min (min (min eligible_amount per_claim_limit) remaining_annual) sub) 0
    let is_network :=
      if strTruthy hospital_name then is_network_hospital p hospital_name
      else false
    let copay_info := calculate_copay p approved_amount
      (pyOrS category "consultation") is_network
    let copay_amount := copay_info.copay_amount
    let network_discount := copay_info.network_discount
    let final_approved := approved_amount - copay_amount
    let within_limits := rejection_reasons.isEmpty
    let notes_parts : List String :=
      (if per_claim_exceeded then
        ["Claim amount ₹" ++ fmtQ claim_amount ++ " exceeds per-claim limit of ₹" ++
          fmtQ per_claim_limit]
      else []) ++
      (if annual_limit_exceeded then
        ["Annual limit exceeded. Remaining: ₹" ++ fmtQ remaining_annual]
      else []) ++
      (if sub_limit_exceeded then
        ["Sub-limit for " ++ pyStr category ++ " is ₹" ++ fmtQ sub]
      else []) ++
      (if excluded_amount > 0 then ["Excluded amount: ₹" ++ fmtQ excluded_amount]
      else []) ++
      (if copay_amount > 0 then
        ["Co-pay (" ++ fmtQ copay_info.copay_percentage ++ "%): ₹" ++
          fmtQ copay_amount]
      else []) ++
      (if is_network then
        ["Network hospital discount: ₹" ++ fmtQ network_discount]
      else [])
    let notes :=
      if notes_parts.isEmpty then "All amounts within limits"
      else String.intercalate ". " notes_parts
    .full ⟨within_limits, claim_amount, eligible_amount, round2 final_approved,
      round2 copay_amount, copay_info.copay_percentage, round2 network_discount,
      excluded_amount, per_claim_limit, annual_limit, sub, round2 remaining_annual,
      per_claim_exceeded, annual_limit_exceeded, sub_limit_exceeded, is_network,
      rejection_reasons,
      ⟨round2 copay_amount, round2 network_discount, excluded_amount⟩,
      notes, 0.98⟩

/-- The excluded-amount mapping loop of calculate_limits_with_agent. -/
def excluded_amount_from (bill : Bill) (excluded_items : List String) : ℚ :=
  excluded_items.foldl
    (fun acc item =>
      if item = "" then acc
      else
        let item_lower := item.toLower
        if substr "whitening" item_lower || substr "teeth whitening" item_lower then
          acc + bill.teeth_whitening
        else if substr "diet" item_lower then acc + bill.diet_plan
        else if substr "cosmetic" item_lower then
          acc + bill.teeth_whitening + bill.cosmetic
        else acc)
    0

/-- limit_calculator.calculate_limits_with_agent.  none models the
KeyError raised on the sparse below-minimum dict (its
per_claim_exceeded lookup); the assistive agent branch consumes the
environment's agent reply, an exception there falling back to the rule
result with an annotated note. -/
def calculate_limits_with_agent (p : Policy) (e : Env) (claim_data : ClaimData)
    (cov : CovResult) : Option LimitResult :=
  let claim_amount := claim_data.claim_amount
  let hospital_name := claim_data.hospital
  let previous_claims_ytd := claim_data.previous_claims_ytd
  let bill := claim_data.documents.bill.getD {}
  let excluded_amount := excluded_amount_from bill cov.excluded_items
  match calculate_limits p claim_amount (some cov.category) hospital_name
      excluded_amount previous_claims_ytd (some cov.applicable_sub_limit) with
  | .belowMin _ => none
  | .full r =>
    if !r.within_limits && r.per_claim_exceeded then some r
    else if decide (excluded_amount > 0) || r.sub_limit_exceeded then
      match e.limitAgent with
      | none =>
        some { r with
          notes := r.notes ++ " (Agent calculation skipped: " ++ e.agentErrMsg ++ ")" }
      | some reply =>
        match reply.approved_amount with
        | some a =>
          some { r with
            approved_amount := a,
            notes := reply.notes.getD r.notes,
            confidence_score := reply.confidence_score.getD 0.92 }
        | none => some r
    else some r

/-! ## Decision synthesis (app/agents/decision_maker.py) -/

inductive DecisionType
  | APPROVED
  | REJECTED
  | PARTIAL
  | MANUAL_REVIEW
deriving DecidableEq

structure AdjudicationResult where
  claim_id : String
  decision : DecisionType
  approved_amount : ℚ := 0
  deductions : DeductionsBreakdown := ⟨0, 0, 0⟩
  rejected_items : List String := []
  rejection_reasons : List String := []
  confidence_score : ℚ := 0.95
  fraud_flags : List String := []
  cashless_approved : Bool := false
  network_discount : ℚ := 0
  notes : Option String := none
  next_steps : Option String := none
  eligibility_result : Option EligResult := none
  coverage_result : Option CovResult := none
  limit_result : Option LimitResult := none
  fraud_result : Option FraudResult := none
deriving DecidableEq

def hard_rejection_reasons : List String :=
  ["POLICY_INACTIVE", "MEMBER_NOT_COVERED", "WAITING_PERIOD",
   "MISSING_DOCUMENTS", "PRE_AUTH_MISSING", "PER_CLAIM_EXCEEDED"]

/-- decision_maker.make_decision.  The sequential reassignments of the
source are expressed value-style: the approved amount is zeroed exactly
in the hard-rejection tier, and the decision is the first matching tier. -/
def make_decision (currentYear : ℤ) (claim_id : String) (claim_data : ClaimData)
    (extraction_result : ExtractionResult) (eligibility_result : EligResult)
    (coverage_result : CovResult) (limit_result : LimitResult) :
    AdjudicationResult :=
  let fraud_result := check_fraud_indicators currentYear claim_data
    claim_data.previous_claims_same_day claim_data.previous_claims_ytd 50000
  let all_rejection_reasons := eligibility_result.rejection_reasons ++
    coverage_result.rejection_reasons ++ limit_result.rejection_reasons
  let excluded_items := coverage_result.excluded_items
  let covered_items := coverage_result.covered_items
  let approved_amount := limit_result.approved_amount
  let claim_amount := claim_data.claim_amount
  let avg_confidence := ((extraction_result.confidence_score.getD 0.85) +
    eligibility_result.confidence_score + coverage_result.confidence_score +
    limit_result.confidence_score) / 4
  let fraud_risk := fraud_result.risk_score
  let fraud_flags := fraud_result.fraud_flags
  let final_confidence := avg_confidence * (1 - fraud_risk * 0.5)
  let has_hard_rejection :=
    all_rejection_reasons.any fun r => decide (r ∈ hard_rejection_reasons)
  let is_fully_excluded_service :=
    decide ("SERVICE_NOT_COVERED" ∈ all_rejection_reasons) &&
      covered_items.length == 0
  let tier1 := has_hard_rejection || is_fully_excluded_service
  let tier2 := fraud_result.recommend_manual_review || decide (fraud_risk ≥ 0.35)
  let tier3 := !excluded_items.isEmpty && decide (covered_items.length > 0)
  let decision : DecisionType :=
    if tier1 then .REJECTED
    else if tier2 then .MANUAL_REVIEW
    else if tier3 then .PARTIAL
    else if approved_amount > 0 then
      (if approved_amount ≥ claim_amount * 0.80 then .APPROVED else .PARTIAL)
    else .REJECTED
  let approved_final : ℚ := if tier1 then 0 else approved_amount
  let notes_parts : List String :=
    if tier1 then
      (if "MISSING_DOCUMENTS" ∈ all_rejection_reasons then
        ["Required documents missing"]
      else if "WAITING_PERIOD" ∈ all_rejection_reasons then
        ["Treatment within waiting period"]
      else if "PRE_AUTH_MISSING" ∈ all_rejection_reasons then
        ["Pre-authorization required but not obtained"]
      else if "PER_CLAIM_EXCEEDED" ∈ all_rejection_reasons then
        ["Claim amount ₹" ++ fmtQ claim_amount ++
          " exceeds per-claim limit of ₹5000"]
      else if is_fully_excluded_service then
        ["Treatment/service is excluded from coverage"]
      else
        ["Claim rejected: " ++ String.intercalate ", " all_rejection_reasons])
    else if tier2 then
      ["Claim flagged for manual review due to unusual patterns"] ++
        (if !fraud_flags.isEmpty then
          ["Flags: " ++ String.intercalate ", " (fraud_flags.take 3)]
        else [])
    else if tier3 then
      ["Partial approval - excluded items: " ++ String.intercalate ", "
        ((excluded_items.take 2).map fun i => (i.splitOn " - ").headD "")]
    else if approved_amount > 0 then
      (if approved_amount ≥ claim_amount * 0.80 then
        ["All checks passed. Claim approved."]
      else ["Claim partially approved after applying deductions."])
    else ["Unable to approve claim - no eligible amount"]
  let next_steps : String :=
    if tier1 then
      (if "MISSING_DOCUMENTS" ∈ all_rejection_reasons then
        "Please submit all required documents including prescription from a registered doctor."
      else if "WAITING_PERIOD" ∈ all_rejection_reasons then
        "Your claim is not eligible due to waiting period. Please resubmit after " ++
          (eligibility_result.waiting_period_end_date.getD "") ++ "."
      else if "PRE_AUTH_MISSING" ∈ all_rejection_reasons then
        "Pre-authorization is required for this treatment. Please obtain pre-authorization before treatment."
      else if "PER_CLAIM_EXCEEDED" ∈ all_rejection_reasons then
        "Your claim exceeds the per-claim limit. Please contact support."
      else if is_fully_excluded_service then
        "This treatment/service is not covered under your policy."
      else "Please review the rejection reasons and contact support.")
    else if tier2 then
      "Your claim will be reviewed by our claims team within 3-5 business days."
    else if tier3 then
      "₹" ++ fmtQ approved_amount ++
        " approved. Some items were not covered under your policy."
    else if approved_amount > 0 then
      (if claim_data.cashless_request && limit_result.is_network_hospital then
        "Cashless claim approved. No action needed."
      else "₹" ++ fmtQ approved_amount ++
        " will be reimbursed within 5-7 business days.")
    else "Please contact support for assistance."
  let deductions : DeductionsBreakdown :=
    ⟨limit_result.copay_amount, limit_result.network_discount,
      limit_result.excluded_amount⟩
  let cashless_approved := claim_data.cashless_request &&
    limit_result.is_network_hospital &&
    (decide (decision = .APPROVED) || decide (decision = .PARTIAL)) &&
    decide (approved_final ≤ 5000)
  { claim_id := claim_id
    decision := decision
    approved_amount := round2 approved_final
    deductions := deductions
    rejected_items := excluded_items
    rejection_reasons := all_rejection_reasons
    confidence_score := round2 final_confidence
    fraud_flags := fraud_flags
    cashless_approved := cashless_approved
    network_discount := limit_result.network_discount
    notes := some (if notes_parts.isEmpty then "Claim processed successfully"
      else String.intercalate " | " notes_parts)
    next_steps := some next_steps
    eligibility_result := some eligibility_result
    coverage_result := some coverage_result
    limit_result := some limit_result
    fraud_result := some fraud_result }

/-- decision_maker.make_decision_with_agent returns the rule-based
result on every path. -/
def make_decision_with_agent (currentYear : ℤ) (claim_id : String)
    (claim_data : ClaimData) (extraction_result : ExtractionResult)
    (eligibility_result : EligResult) (coverage_result : CovResult)
    (limit_result : LimitResult) : AdjudicationResult :=
  make_decision currentYear claim_id claim_data extraction_result
    eligibility_result coverage_result limit_result

/-! ## Workflow (app/workflows/claim_adjudication.py) -/

/-- ClaimAdjudicationWorkflow.process, with the extraction stage output
supplied as input (spec section 6) and the run environment explicit.
none models an uncaught exception escaping without a result (notably
the KeyError of the limit wrapper for below-minimum claims). -/
def workflow_process (p : Policy) (e : Env) (claim_data : ClaimData)
    (extraction_result : ExtractionResult) : Option AdjudicationResult :=
  let claim_id := pyOrS claim_data.claim_id (generate_claim_id e)
  if !extraction_result.has_prescription then
    some { claim_id := claim_id
           decision := .REJECTED
           approved_amount := 0
           rejection_reasons := ["MISSING_DOCUMENTS"]
           confidence_score := 1
           notes := some "Prescription from registered doctor is required"
           next_steps :=
             some "Please submit a valid prescription from a registered medical practitioner." }
  else if !extraction_result.has_bill then
    some { claim_id := claim_id
           decision := .REJECTED
           approved_amount := 0
           rejection_reasons := ["MISSING_DOCUMENTS"]
           confidence_score := 1
           notes := some "Medical bill/invoice is required"
           next_steps :=
             some "Please submit the original bill or invoice for the treatment." }
  else
    let eligibility_result := check_eligibility_with_agent p e claim_data
      extraction_result
    if !eligibility_result.is_eligible then
      some { claim_id := claim_id
             decision := .REJECTED
             approved_amount := 0
             rejection_reasons := eligibility_result.rejection_reasons
             confidence_score := eligibility_result.confidence_score
             notes := some eligibility_result.notes
             next_steps := some
               (if strTruthy eligibility_result.waiting_period_end_date then
                 "Eligible from: " ++
                   (eligibility_result.waiting_period_end_date.getD "N/A")
               else "Please contact support.")
             eligibility_result := some eligibility_result }
    else
      let coverage_result := validate_coverage_with_agent p claim_data
        extraction_result
      match calculate_limits_with_agent p e claim_data coverage_result with
      | none => none
      | some limit_result =>
        some (make_decision_with_agent e.currentYear claim_id claim_data
          extraction_result eligibility_result coverage_result limit_result)

/-! ## Result extractors for calculate_limits -/

def limitApproved (o : LimitOut) : ℚ :=
  match o with
  | .full r => r.approved_amount
  | .belowMin r => r.approved_amount

def limitCopay (o : LimitOut) : ℚ :=
  match o with
  | .full r => r.copay_amount
  | .belowMin _ => 0

/-! ## Concrete scenario data -/

/-- The viral-fever scenario claim of the spec (member joined 61 days
before treatment, non-network hospital, valid doctor registration,
non-round bill amounts, a Friday treatment date). -/
def claimC6 : ClaimData :=
  { member_id := some "EMP001"
    member_name := some "Rajesh Kumar"
    treatment_date := "2024-11-01"
    claim_amount := 1500
    hospital := some "City Clinic"
    member_join_date := some "2024-09-01"
    documents :=
      { prescription := some
          { doctor_name := some "Dr. Sharma"
            doctor_reg := some "KA/45678/2015"
            diagnosis := some "Viral fever"
            medicines_prescribed := ["Paracetamol"] }
        bill := some { consultation_fee := 900, diagnostic_tests := 600 } } }

def extC6 : ExtractionResult :=
  { has_prescription := true
    has_bill := true
    extracted_data :=
      { diagnosis := some "Viral fever"
        medicines := ["Paracetamol"]
        tests := ["CBC", "Dengue"] } }

def envC6 : Env :=
  { nowTimestamp := "20251012120000"
    uuid8 := "AB12CD34"
    today := ⟨2025, 10, 12⟩
    currentYear := 2025 }

def fallbackResult : AdjudicationResult :=
  { claim_id := "", decision := .REJECTED }

/-- The result the pipeline computes on the viral-fever scenario. -/
def wRes : AdjudicationResult :=
  (workflow_process defaultPolicy envC6 claimC6 extC6).getD fallbackResult

/-- A policy configuration with a zero consultation co-pay percentage
(still inside [0, 100]). -/
def pC1 : Policy := { consultation_copay_percentage := 0 }

/-- A consultation claim whose amount carries a sub-paise fraction. -/
def claimC1 : ClaimData :=
  { treatment_date := "2024-11-01"
    claim_amount := 1000.006
    member_join_date := some "2024-01-01"
    documents :=
      { prescription := some
          { doctor_reg := some "KA/45678/2015"
            diagnosis := some "Viral fever" }
        bill := some {} } }

def extC1 : ExtractionResult :=
  { has_prescription := true
    has_bill := true
    extracted_data := { diagnosis := some "Viral fever" } }

def envC1 : Env :=
  { nowTimestamp := "20251012120000"
    uuid8 := "AB12CD34"
    today := ⟨2025, 10, 12⟩
    currentYear := 2025 }

/-- A claim submitted without a claim_id. -/
def claimNoId : ClaimData :=
  { treatment_date := "2024-11-01", claim_amount := 1500 }

def extNoPresc : ExtractionResult := { has_prescription := false }

def envA : Env :=
  { nowTimestamp := "20250101000000"
    uuid8 := "AAAAAAAA"
    today := ⟨2025, 1, 1⟩
    currentYear := 2025 }

def envB : Env :=
  { nowTimestamp := "20250101000000"
    uuid8 := "BBBBBBBB"
    today := ⟨2025, 1, 1⟩
    currentYear := 2025 }

def claimWithId : ClaimData := { claimC6 with claim_id := some "CLM_FIXED01" }

def envC6b : Env :=
  { envC6 with nowTimestamp := "20251012130000", uuid8 := "ZZ99YY88" }

/-- The condition under which calculate_limits_with_agent consults the
assistive agent (not early-returned on a per-claim rejection, and there
is a positive excluded amount or a sub-limit overage). -/
def limit_agent_branch (p : Policy) (claim_data : ClaimData) (cov : CovResult) :
    Bool :=
  let excluded_amount := excluded_amount_from (claim_data.documents.bill.getD {})
    cov.excluded_items
  match calculate_limits p claim_data.claim_amount (some cov.category)
      claim_data.hospital excluded_amount claim_data.previous_claims_ytd
      (some cov.applicable_sub_limit) with
  | .belowMin _ => false
  | .full r =>
    !(!r.within_limits && r.per_claim_exceeded) &&
      (decide (excluded_amount > 0) || r.sub_limit_exceeded)

/-! ## Lemmas about round-half-even rounding -/

theorem rhe_ge_floor (x : ℚ) : ⌊x⌋ ≤ rhe x := by
  unfold rhe
  split_ifs <;> omega

theorem rhe_le_floor_succ (x : ℚ) : rhe x ≤ ⌊x⌋ + 1 := by
  unfold rhe
  split_ifs <;> omega

theorem rhe_ge (x : ℚ) : x - 1/2 ≤ (rhe x : ℚ) := by
  have hf := Int.lt_floor_add_one x
  unfold rhe
  split_ifs with h1 h2 h3 <;> push_cast <;> linarith

theorem rhe_le (x : ℚ) : (rhe x : ℚ) ≤ x + 1/2 := by
  have hf := Int.floor_le x
  unfold rhe
  split_ifs with h1 h2 h3 <;> push_cast <;> linarith

theorem rhe_mono {a b : ℚ} (h : a ≤ b) : rhe a ≤ rhe b := by
  rcases lt_or_ge ⌊a⌋ ⌊b⌋ with hf | hf
  · have h1 := rhe_le_floor_succ a
    have h2 := rhe_ge_floor b
    omega
  · have hfe : ⌊a⌋ = ⌊b⌋ := le_antisymm (Int.floor_mono h) hf
    have hr : a - ⌊a⌋ ≤ b - ⌊b⌋ := by
      rw [hfe]
      linarith
    unfold rhe
    rw [hfe]
    split_ifs <;> first | omega | (exfalso; linarith)

theorem rhe_intCast (k : ℤ) : rhe (k : ℚ) = k := by
  unfold rhe
  rw [Int.floor_intCast]
  norm_num

theorem round2_mono {a b : ℚ} (h : a ≤ b) : round2 a ≤ round2 b := by
  unfold round2
  have h1 : a * 100 ≤ b * 100 := by linarith
  have h2 := rhe_mono h1
  have h3 : ((rhe (a * 100) : ℤ) : ℚ) ≤ ((rhe (b * 100) : ℤ) : ℚ) := by exact_mod_cast h2
  linarith

theorem round2_le (x : ℚ) : round2 x ≤ x + 1/200 := by
  unfold round2
  have h := rhe_le (x * 100)
  linarith

theorem round2_ge (x : ℚ) : x - 1/200 ≤ round2 x := by
  unfold round2
  have h := rhe_ge (x * 100)
  linarith

theorem round2_paise (k : ℤ) : round2 ((k : ℚ) / 100) = (k : ℚ) / 100 := by
  unfold round2
  have h : (k : ℚ) / 100 * 100 = (k : ℚ) := by field_simp
  rw [h, rhe_intCast]

theorem round2_round2 (x : ℚ) : round2 (round2 x) = round2 x := by
  have h : round2 x = ((rhe (x * 100) : ℤ) : ℚ) / 100 := rfl
  rw [h, round2_paise]

theorem round2_zero : round2 0 = 0 := by
  unfold round2
  have h : (0 : ℚ) * 100 = ((0 : ℤ) : ℚ) := by norm_num
  rw [h, rhe_intCast]
  norm_num

theorem round2_one : round2 1 = 1 := by
  unfold round2
  have h : (1 : ℚ) * 100 = ((100 : ℤ) : ℚ) := by norm_num
  rw [h, rhe_intCast]
  norm_num

theorem round2_nonneg {x : ℚ} (h : 0 ≤ x) : 0 ≤ round2 x := by
  have := round2_mono h
  rw [round2_zero] at this
  exact this

theorem rhe_neg_half : rhe (-(1/2)) = 0 := by
  have hfl : ⌊(-(1/2) : ℚ)⌋ = -1 := by
    apply Int.floor_eq_iff.mpr
    constructor <;> norm_num
  unfold rhe
  rw [hfl]
  norm_num

theorem round2_neg_half_paise : round2 (-(1/200)) = 0 := by
  unfold round2
  have h : (-(1/200) : ℚ) * 100 = -(1/2) := by norm_num
  rw [h, rhe_neg_half]
  norm_num

/-! ## General lemmas about the stages -/

theorem copay_percentage_cases (p : Policy) (c : String) :
    (get_sub_limits p c).copay_percentage.getD 10 = p.consultation_copay_percentage ∨
    (get_sub_limits p c).copay_percentage.getD 10 = 10 := by
  unfold get_sub_limits
  split_ifs <;> simp

/-! ## Claim C10: co-pay fallback for non-consultation categories -/

/-- Claim C10: for every category other than consultation, the
sub-limit table returned by get_sub_limits has no copay_percentage or
network_discount entry, so calculate_copay applies the fallback 10
percent co-pay and, for network hospitals, the fallback 20 percent
network discount, whatever the per-category percentages of the policy
configuration are. -/
theorem copay_fallback_for_non_consultation (p : Policy) (category : String)
    (h : category ≠ "consultation") :
    (get_sub_limits p category).copay_percentage = none ∧
    (get_sub_limits p category).network_discount = none ∧
    ∀ (amount : ℚ) (is_network : Bool),
      (calculate_copay p amount category is_network).copay_percentage = 10 ∧
      (calculate_copay p amount category is_network).network_discount_percentage =
        (if is_network then 20 else 0) ∧
      (calculate_copay p amount category is_network).copay_amount =
        round2 (amount * (10 / 100)) ∧
      (calculate_copay p amount category is_network).network_discount =
        round2 (amount * ((if is_network then (20 : ℚ) else 0) / 100)) := by
  have hsl : (get_sub_limits p category).copay_percentage = none ∧
      (get_sub_limits p category).network_discount = none := by
    unfold get_sub_limits
    split_ifs <;> simp_all
  refine ⟨hsl.1, hsl.2, ?_⟩
  intro amount is_network
  unfold calculate_copay
  dsimp only
  rw [hsl.1, hsl.2]
  cases is_network <;> simp

/-- Witness for C10 at the dental category. -/
theorem copay_fallback_for_non_consultation_witness :
    ("dental" : String) ≠ "consultation" ∧
    ((get_sub_limits defaultPolicy "dental").copay_percentage = none ∧
     (get_sub_limits defaultPolicy "dental").network_discount = none ∧
     ∀ (amount : ℚ) (is_network : Bool),
       (calculate_copay defaultPolicy amount "dental" is_network).copay_percentage = 10 ∧
       (calculate_copay defaultPolicy amount "dental" is_network).network_discount_percentage =
         (if is_network then 20 else 0) ∧
       (calculate_copay defaultPolicy amount "dental" is_network).copay_amount =
         round2 (amount * (10 / 100)) ∧
       (calculate_copay defaultPolicy amount "dental" is_network).network_discount =
         round2 (amount * ((if is_network then (20 : ℚ) else 0) / 100))) :=
  ⟨by decide, copay_fallback_for_non_consultation defaultPolicy "dental" (by decide)⟩

/-! ## Claim C5: fraud score range and manual-review condition -/

theorem ite_nonneg_q {c : Prop} [Decidable c] {a b : ℚ} (ha : 0 ≤ a)
    (hb : 0 ≤ b) : 0 ≤ if c then a else b := by
  split_ifs <;> assumption

theorem fraud_signals_nonneg (currentYear : ℤ) (claim_data : ClaimData)
    (previous_claims_same_day : ℕ) (previous_claims_ytd annual_limit : ℚ) :
    0 ≤ (fraud_signals currentYear claim_data previous_claims_same_day
      previous_claims_ytd annual_limit).2 := by
  unfold fraud_signals
  dsimp only
  refine add_nonneg (add_nonneg (add_nonneg (add_nonneg (add_nonneg ?_ ?_) ?_)
    ?_) ?_) ?_
  · exact ite_nonneg_q (by norm_num) (ite_nonneg_q (by norm_num) le_rfl)
  · exact ite_nonneg_q (by norm_num) le_rfl
  · exact ite_nonneg_q (by norm_num) le_rfl
  · cases claim_data.documents.prescription with
    | none => exact le_rfl
    | some pr =>
      exact add_nonneg (ite_nonneg_q (by norm_num) le_rfl)
        (ite_nonneg_q (by norm_num) le_rfl)
  · cases claim_data.documents.bill with
    | none => exact le_rfl
    | some bi => exact ite_nonneg_q (by norm_num) le_rfl
  · cases parseDate claim_data.treatment_date with
    | none => exact le_rfl
    | some dt =>
      exact ite_nonneg_q (ite_nonneg_q (by norm_num) le_rfl) le_rfl

/-- Claim C5: the fraud detector's returned risk score lies in [0, 1],
and the manual-review recommendation is true exactly when the additive
(uncapped) risk score reaches 0.35 or at least three flags fired. -/
theorem fraud_score_range_and_review (currentYear : ℤ) (claim_data : ClaimData)
    (previous_claims_same_day : ℕ) (previous_claims_ytd annual_limit : ℚ) :
    0 ≤ (check_fraud_indicators currentYear claim_data previous_claims_same_day
        previous_claims_ytd annual_limit).risk_score ∧
    (check_fraud_indicators currentYear claim_data previous_claims_same_day
        previous_claims_ytd annual_limit).risk_score ≤ 1 ∧
    ((check_fraud_indicators currentYear claim_data previous_claims_same_day
        previous_claims_ytd annual_limit).recommend_manual_review = true ↔
      (0.35 ≤ (fraud_signals currentYear claim_data previous_claims_same_day
          previous_claims_ytd annual_limit).2 ∨
        3 ≤ (fraud_signals currentYear claim_data previous_claims_same_day
          previous_claims_ytd annual_limit).1.length)) := by
  have hraw := fraud_signals_nonneg currentYear claim_data previous_claims_same_day
    previous_claims_ytd annual_limit
  unfold check_fraud_indicators
  dsimp only
  refine ⟨?_, ?_, ?_⟩
  · exact round2_nonneg (le_min hraw zero_le_one)
  · refine le_trans (round2_mono (min_le_right _ _)) ?_
    rw [round2_one]
  · simp [ge_iff_le, Bool.or_eq_true, decide_eq_true_iff]

/-! ## Claims C4 and C7: the limit-stage formula and its rounding -/

/-- Claim C4 (amended): for a claim at or above the minimum, the
approved amount before co-pay is max(0, min(eligible, per-claim limit,
remaining annual, sub-limit)); the co-pay amount is that base times the
category co-pay percentage over 100 rounded to two decimals, and the
final approved amount is the base minus the rounded co-pay, itself
rounded to two decimals; the network discount is computed alongside but
never subtracted from the approved amount. -/
theorem limit_calculation_formula (p : Policy) (ca : ℚ) (cat : Option String)
    (hosp : Option String) (excl ytd : ℚ) (sub : Option ℚ)
    (h : ¬ ca < p.minimum_claim_amount) :
    ∃ rr, calculate_limits p ca cat hosp excl ytd sub = .full rr ∧
      rr.eligible_amount = ca - excl ∧
      rr.per_claim_limit = p.per_claim_limit ∧
      rr.copay_percentage =
        (get_sub_limits p (pyOrS cat "consultation")).copay_percentage.getD 10 ∧
      (let a := max (min (min (min rr.eligible_amount rr.per_claim_limit)
          (p.annual_limit - ytd)) rr.applicable_sub_limit) 0
       rr.copay_amount = round2 (a * (rr.copay_percentage / 100)) ∧
       rr.approved_amount =
         round2 (a - round2 (a * (rr.copay_percentage / 100))) ∧
       rr.network_discount = round2 (a *
         ((if rr.is_network_hospital then
             (get_sub_limits p
               (pyOrS cat "consultation")).network_discount.getD 20
           else 0) / 100))) := by
  unfold calculate_limits
  simp only [if_neg h]
  exact ⟨_, rfl, rfl, rfl, rfl, round2_round2 _, rfl, round2_round2 _⟩

/-- Witness for C4 at a concrete in-limits consultation claim. -/
theorem limit_calculation_formula_witness :
    (¬ (1500 : ℚ) < defaultPolicy.minimum_claim_amount) ∧
    (∃ rr, calculate_limits defaultPolicy 1500 (some "consultation") none 0 0
        none = .full rr ∧
      rr.eligible_amount = 1500 - 0 ∧
      rr.per_claim_limit = defaultPolicy.per_claim_limit ∧
      rr.copay_percentage =
        (get_sub_limits defaultPolicy
          (pyOrS (some "consultation") "consultation")).copay_percentage.getD 10 ∧
      (let a := max (min (min (min rr.eligible_amount rr.per_claim_limit)
          (defaultPolicy.annual_limit - 0)) rr.applicable_sub_limit) 0
       rr.copay_amount = round2 (a * (rr.copay_percentage / 100)) ∧
       rr.approved_amount =
         round2 (a - round2 (a * (rr.copay_percentage / 100))) ∧
       rr.network_discount = round2 (a *
         ((if rr.is_network_hospital then
             (get_sub_limits defaultPolicy
               (pyOrS (some "consultation") "consultation")).network_discount.getD 20
           else 0) / 100)))) :=
  ⟨by show ¬ (1500 : ℚ) < 500; norm_num,
   limit_calculation_formula defaultPolicy 1500 (some "consultation") none 0 0
     none (by show ¬ (1500 : ℚ) < 500; norm_num)⟩

/-- Counterexample to C4 as stated: at claim amount 600.07 the returned
co-pay is the rounded 60.01, not the exact product 60.007, and the
returned approved amount 540.06 differs from 600.07 minus the exact
co-pay (540.063). -/
theorem limit_calculation_formula_counterexample :
    limitCopay (calculate_limits defaultPolicy 600.07 (some "consultation")
      none 0 0 none) = 60.01 ∧
    limitApproved (calculate_limits defaultPolicy 600.07 (some "consultation")
      none 0 0 none) = 540.06 ∧
    ¬ ((60.01 : ℚ) = 600.07 * (10 / 100)) ∧
    ¬ ((540.06 : ℚ) = 600.07 - 600.07 * (10 / 100)) :=
  ⟨by with_unfolding_all rfl, by with_unfolding_all rfl,
   by norm_num, by norm_num⟩

/-- Claim C7 (amended): the limit stage does not pass full-precision
values to the synthesizer — its approved amount, co-pay amount, network
discount and remaining annual limit are already two-decimal quantities
(fixed points of round2), the rounding having been applied inside the
limit calculator and calculate_copay. -/
theorem limit_stage_already_rounded (p : Policy) (ca : ℚ) (cat : Option String)
    (hosp : Option String) (excl ytd : ℚ) (sub : Option ℚ)
    (h : ¬ ca < p.minimum_claim_amount) :
    ∃ rr, calculate_limits p ca cat hosp excl ytd sub = .full rr ∧
      round2 rr.approved_amount = rr.approved_amount ∧
      round2 rr.copay_amount = rr.copay_amount ∧
      round2 rr.network_discount = rr.network_discount ∧
      round2 rr.remaining_annual_limit = rr.remaining_annual_limit := by
  unfold calculate_limits
  simp only [if_neg h]
  exact ⟨_, rfl, round2_round2 _, round2_round2 _, round2_round2 _,
    round2_round2 _⟩

/-- Witness for C7 at a concrete dental claim. -/
theorem limit_stage_already_rounded_witness :
    (¬ (2500 : ℚ) < defaultPolicy.minimum_claim_amount) ∧
    (∃ rr, calculate_limits defaultPolicy 2500 (some "dental") none 0 0 none =
        .full rr ∧
      round2 rr.approved_amount = rr.approved_amount ∧
      round2 rr.copay_amount = rr.copay_amount ∧
      round2 rr.network_discount = rr.network_discount ∧
      round2 rr.remaining_annual_limit = rr.remaining_annual_limit) :=
  ⟨by show ¬ (2500 : ℚ) < 500; norm_num,
   limit_stage_already_rounded defaultPolicy 2500 (some "dental") none 0 0 none
     (by show ¬ (2500 : ℚ) < 500; norm_num)⟩

/-- Counterexample to C7 as stated: the limit stage hands the
synthesizer 77.78 and 699.99 for claim amount 777.77, not the
full-precision 77.777 and 699.993 — rounding happens before the
synthesis boundary. -/
theorem limit_stage_rounding_counterexample :
    limitCopay (calculate_limits defaultPolicy 777.77 (some "consultation")
      none 0 0 none) = 77.78 ∧
    limitApproved (calculate_limits defaultPolicy 777.77 (some "consultation")
      none 0 0 none) = 699.99 ∧
    ¬ ((77.78 : ℚ) = 777.77 * (10 / 100)) ∧
    ¬ ((699.99 : ℚ) = 777.77 - 777.77 * (10 / 100)) :=
  ⟨by with_unfolding_all rfl, by with_unfolding_all rfl,
   by norm_num, by norm_num⟩

/-! ## Claim C2: hard rejection codes force REJECTED with zero amount -/

/-- Claim C2: if any hard rejection code occurs among the merged
rejection codes of eligibility, coverage and limits, or
SERVICE_NOT_COVERED occurs with an empty covered-items list, the
synthesized decision is REJECTED and the approved amount is 0,
whatever the limit-stage amount, fraud signals, or item lists are. -/
theorem hard_rejection_forces_rejected (currentYear : ℤ) (claim_id : String)
    (claim_data : ClaimData) (extraction_result : ExtractionResult)
    (eligibility_result : EligResult) (coverage_result : CovResult)
    (limit_result : LimitResult)
    (h : (∃ c ∈ hard_rejection_reasons,
            c ∈ eligibility_result.rejection_reasons ++
              coverage_result.rejection_reasons ++ limit_result.rejection_reasons) ∨
         ("SERVICE_NOT_COVERED" ∈ eligibility_result.rejection_reasons ++
            coverage_result.rejection_reasons ++ limit_result.rejection_reasons ∧
          coverage_result.covered_items = [])) :
    (make_decision currentYear claim_id claim_data extraction_result
      eligibility_result coverage_result limit_result).decision = .REJECTED ∧
    (make_decision currentYear claim_id claim_data extraction_result
      eligibility_result coverage_result limit_result).approved_amount = 0 := by
  have htier1 : ((eligibility_result.rejection_reasons ++
        coverage_result.rejection_reasons ++ limit_result.rejection_reasons).any
        (fun r => decide (r ∈ hard_rejection_reasons)) ||
      (decide ("SERVICE_NOT_COVERED" ∈ eligibility_result.rejection_reasons ++
          coverage_result.rejection_reasons ++ limit_result.rejection_reasons) &&
        (coverage_result.covered_items.length == 0))) = true := by
    rcases h with ⟨c, hc1, hc2⟩ | ⟨h1, h2⟩
    · apply Bool.or_eq_true_iff.mpr
      left
      exact List.any_eq_true.mpr ⟨c, hc2, decide_eq_true hc1⟩
    · apply Bool.or_eq_true_iff.mpr
      right
      apply Bool.and_eq_true_iff.mpr
      exact ⟨decide_eq_true h1, by simp [h2]⟩
  unfold make_decision
  dsimp only
  rw [htier1]
  constructor
  · simp
  · simp [round2_zero]

/-- Witness for C2: a waiting-period rejection with a positive
limit-stage amount still synthesizes to REJECTED with amount 0. -/
theorem hard_rejection_forces_rejected_witness :
    (make_decision 2025 "CLM_W" {} {}
      ⟨false, some true, some false, some true, ["WAITING_PERIOD"],
        some "2024-12-01", "n", 0.98⟩
      ⟨true, ["Consultation"], [], false, false, 2000, "consultation", [],
        "n", 0.92⟩
      ⟨true, 1500, 1500, 1350, 150, 10, 0, 0, 5000, 50000, 2000, 50000,
        false, false, false, false, [], ⟨150, 0, 0⟩, "n", 0.98⟩).decision =
      .REJECTED ∧
    (make_decision 2025 "CLM_W" {} {}
      ⟨false, some true, some false, some true, ["WAITING_PERIOD"],
        some "2024-12-01", "n", 0.98⟩
      ⟨true, ["Consultation"], [], false, false, 2000, "consultation", [],
        "n", 0.92⟩
      ⟨true, 1500, 1500, 1350, 150, 10, 0, 0, 5000, 50000, 2000, 50000,
        false, false, false, false, [], ⟨150, 0, 0⟩, "n", 0.98⟩).approved_amount =
      0 :=
  hard_rejection_forces_rejected 2025 "CLM_W" {} {} _ _ _
    (Or.inl ⟨"WAITING_PERIOD", by decide, by decide⟩)

/-! ## Claim C9: the pre-authorization flag is never forwarded -/

theorem testsFold_excluded_mono (camt : ℚ) (po : Bool) (l : List String) :
    ∀ (acc : CovAcc) (x : String),
      x ∈ acc.excluded → x ∈ (l.foldl (coverageTestStep camt po) acc).excluded := by
  induction l with
  | nil => intro acc x hx; exact hx
  | cons hd tl ih =>
    intro acc x hx
    apply ih
    unfold coverageTestStep
    split_ifs <;>
      first
      | exact hx
      | exact List.mem_append_left _ hx

theorem testsFold_rejections_mono (camt : ℚ) (po : Bool) (l : List String) :
    ∀ (acc : CovAcc) (x : String),
      x ∈ acc.rejections →
        x ∈ (l.foldl (coverageTestStep camt po) acc).rejections := by
  induction l with
  | nil => intro acc x hx; exact hx
  | cons hd tl ih =>
    intro acc x hx
    apply ih
    unfold coverageTestStep
    split_ifs <;>
      first
      | exact hx
      | exact List.mem_append_left _ hx

theorem empty_test_needs_no_pre_auth (camt : ℚ) :
    check_pre_authorization_required "" camt = false := by
  with_unfolding_all rfl

theorem testsFold_flags_qualifying_test (camt : ℚ) (l : List String) :
    ∀ (acc : CovAcc) (t : String), t ∈ l →
      check_pre_authorization_required t camt = true →
      (t ++ " - requires pre-authorization") ∈
        (l.foldl (coverageTestStep camt false) acc).excluded ∧
      "PRE_AUTH_MISSING" ∈ (l.foldl (coverageTestStep camt false) acc).rejections := by
  induction l with
  | nil => intro acc t ht; cases ht
  | cons hd tl ih =>
    intro acc t ht hq
    rcases List.mem_cons.mp ht with rfl | ht'
    · have hne : t ≠ "" := by
        intro he
        rw [he, empty_test_needs_no_pre_auth] at hq
        cases hq
      have hstep_exc : (t ++ " - requires pre-authorization") ∈
          (coverageTestStep camt false acc t).excluded := by
        unfold coverageTestStep
        rw [if_neg hne, if_pos hq]
        exact List.mem_append_right _ (List.mem_singleton.mpr rfl)
      have hstep_rej : "PRE_AUTH_MISSING" ∈
          (coverageTestStep camt false acc t).rejections := by
        unfold coverageTestStep
        rw [if_neg hne, if_pos hq]
        show "PRE_AUTH_MISSING" ∈
          (if "PRE_AUTH_MISSING" ∈ acc.rejections then acc.rejections
           else acc.rejections ++ ["PRE_AUTH_MISSING"])
        split_ifs with hmem
        · exact hmem
        · exact List.mem_append_right _ (List.mem_singleton.mpr rfl)
      rw [List.foldl_cons]
      exact ⟨testsFold_excluded_mono camt false tl _ _ hstep_exc,
        testsFold_rejections_mono camt false tl _ _ hstep_rej⟩
    · rw [List.foldl_cons]
      exact ih (coverageTestStep camt false acc hd) t ht' hq

/-- Claim C9: the coverage wrapper never forwards a caller-obtained
pre-authorization (validate_coverage is called with the flag defaulted
to false), so every extracted test naming mri, ct scan or pet scan on a
claim above 10000 is excluded with PRE_AUTH_MISSING, regardless of the
claim's pre_auth_obtained field. -/
theorem pre_auth_never_forwarded (p : Policy) (claim_data : ClaimData)
    (extracted_data : ExtractionResult) (t : String)
    (ht : t ∈ extracted_data.extracted_data.tests)
    (hkw : (["mri", "ct scan", "pet scan"].any
      fun k => substr k t.toLower) = true)
    (hamt : claim_data.claim_amount > 10000) :
    (validate_coverage_with_agent p claim_data extracted_data).pre_auth_obtained =
      false ∧
    "PRE_AUTH_MISSING" ∈
      (validate_coverage_with_agent p claim_data extracted_data).rejection_reasons ∧
    (t ++ " - requires pre-authorization") ∈
      (validate_coverage_with_agent p claim_data extracted_data).excluded_items := by
  have hq : check_pre_authorization_required t claim_data.claim_amount = true := by
    unfold check_pre_authorization_required
    exact Bool.and_eq_true_iff.mpr ⟨hkw, decide_eq_true hamt⟩
  unfold validate_coverage_with_agent validate_coverage
  dsimp only
  refine ⟨rfl, ?_, ?_⟩
  · exact (testsFold_flags_qualifying_test _ _ _ t ht hq).2
  · exact (testsFold_flags_qualifying_test _ _ _ t ht hq).1

/-- Witness for C9: an MRI test on a 15000 claim with the caller's
pre_auth_obtained set to true is still excluded. -/
theorem pre_auth_never_forwarded_witness :
    (("MRI Lumbar Spine" : String) ∈
      ({ extracted_data := { tests := ["MRI Lumbar Spine"] } } :
        ExtractionResult).extracted_data.tests) ∧
    ((["mri", "ct scan", "pet scan"].any
      fun k => substr k ("MRI Lumbar Spine" : String).toLower) = true) ∧
    (({ claim_amount := 15000, pre_auth_obtained := true } :
      ClaimData).claim_amount > 10000) ∧
    ((validate_coverage_with_agent defaultPolicy
        { claim_amount := 15000, pre_auth_obtained := true }
        { extracted_data := { tests := ["MRI Lumbar Spine"] } }).pre_auth_obtained =
      false ∧
    "PRE_AUTH_MISSING" ∈
      (validate_coverage_with_agent defaultPolicy
        { claim_amount := 15000, pre_auth_obtained := true }
        { extracted_data := { tests := ["MRI Lumbar Spine"] } }).rejection_reasons ∧
    ("MRI Lumbar Spine" ++ " - requires pre-authorization") ∈
      (validate_coverage_with_agent defaultPolicy
        { claim_amount := 15000, pre_auth_obtained := true }
        { extracted_data := { tests := ["MRI Lumbar Spine"] } }).excluded_items) :=
  ⟨List.mem_singleton.mpr rfl, by with_unfolding_all rfl,
   by show (15000 : ℚ) > 10000; norm_num,
   pre_auth_never_forwarded defaultPolicy
     { claim_amount := 15000, pre_auth_obtained := true }
     { extracted_data := { tests := ["MRI Lumbar Spine"] } } "MRI Lumbar Spine"
     (List.mem_singleton.mpr rfl) (by with_unfolding_all rfl)
     (by show (15000 : ℚ) > 10000; norm_num)⟩

/-! ## Claim C1: bounds on the final approved amount -/

/-- When the assistive agent raises (the deterministic pipeline), the
limit wrapper returns the rule-based calculation, its approved amount
untouched. -/
theorem calculate_limits_with_agent_rule_approved (p : Policy) (e : Env)
    (claim_data : ClaimData) (cov : CovResult) (lim : LimitResult)
    (hAgent : e.limitAgent = none)
    (hsome : calculate_limits_with_agent p e claim_data cov = some lim) :
    ∃ rr, calculate_limits p claim_data.claim_amount (some cov.category)
        claim_data.hospital
        (excluded_amount_from (claim_data.documents.bill.getD {})
          cov.excluded_items)
        claim_data.previous_claims_ytd (some cov.applicable_sub_limit) =
        .full rr ∧
      lim.approved_amount = rr.approved_amount := by
  unfold calculate_limits_with_agent at hsome
  dsimp only at hsome
  rw [hAgent] at hsome
  split at hsome
  · cases hsome
  · next r heq =>
    refine ⟨r, heq, ?_⟩
    split_ifs at hsome <;> (cases hsome; rfl)

/-- The full-result branch of calculate_limits keeps the approved
amount inside [0, claim amount] and below the per-claim limit, provided
the excluded amount is non-negative, the consultation co-pay percentage
lies in [0, 100], and the claim amount and per-claim limit are
non-negative whole-paise amounts. -/
theorem calculate_limits_full_bounds (p : Policy) (ca : ℚ) (cat : Option String)
    (hosp : Option String) (excl ytd : ℚ) (sub : Option ℚ) (rr : LimitResult)
    (hfull : calculate_limits p ca cat hosp excl ytd sub = .full rr)
    (hexcl : 0 ≤ excl) (hca0 : 0 ≤ ca) (hca : ∃ k : ℤ, ca = (k : ℚ) / 100)
    (hpc0 : 0 ≤ p.per_claim_limit)
    (hpc : ∃ k : ℤ, p.per_claim_limit = (k : ℚ) / 100)
    (hpct0 : 0 ≤ p.consultation_copay_percentage)
    (hpct1 : p.consultation_copay_percentage ≤ 100) :
    0 ≤ rr.approved_amount ∧ rr.approved_amount ≤ ca ∧
      rr.approved_amount ≤ p.per_claim_limit ∧
      round2 rr.approved_amount = rr.approved_amount := by
  have hmin : ¬ ca < p.minimum_claim_amount := by
    intro hlt
    unfold calculate_limits at hfull
    rw [if_pos hlt] at hfull
    cases hfull
  obtain ⟨rr, heq, helig, hpcl, hpcteq, hrest⟩ :=
    limit_calculation_formula p ca cat hosp excl ytd sub hmin
  rw [heq] at hfull
  cases hfull
  dsimp only at hrest
  obtain ⟨hcop, happ, hnd⟩ := hrest
  rw [helig, hpcl] at happ
  -- bound the co-pay percentage
  have hq0 : 0 ≤ rr.copay_percentage := by
    rw [hpcteq]
    rcases copay_percentage_cases p (pyOrS cat "consultation") with hc | hc <;>
      rw [hc]
    · exact hpct0
    · norm_num
  have hq1 : rr.copay_percentage ≤ 100 := by
    rw [hpcteq]
    rcases copay_percentage_cases p (pyOrS cat "consultation") with hc | hc <;>
      rw [hc]
    · exact hpct1
    · norm_num
  -- bound the base amount
  set A := max (min (min (min (ca - excl) p.per_claim_limit)
    (p.annual_limit - ytd)) rr.applicable_sub_limit) 0 with hAdef
  have hA0 : 0 ≤ A := le_max_right _ _
  have hchain_ca : min (min (min (ca - excl) p.per_claim_limit)
      (p.annual_limit - ytd)) rr.applicable_sub_limit ≤ ca - excl :=
    le_trans (min_le_left _ _) (le_trans (min_le_left _ _) (min_le_left _ _))
  have hchain_pcl : min (min (min (ca - excl) p.per_claim_limit)
      (p.annual_limit - ytd)) rr.applicable_sub_limit ≤ p.per_claim_limit :=
    le_trans (min_le_left _ _) (le_trans (min_le_left _ _) (min_le_right _ _))
  have hAca : A ≤ ca := max_le (le_trans hchain_ca (by linarith)) hca0
  have hApcl : A ≤ p.per_claim_limit := max_le hchain_pcl hpc0
  -- bound the rounded co-pay
  have hraw0 : 0 ≤ A * (rr.copay_percentage / 100) :=
    mul_nonneg hA0 (div_nonneg hq0 (by norm_num))
  have hrawA : A * (rr.copay_percentage / 100) ≤ A := by
    have hfrac : rr.copay_percentage / 100 ≤ 1 :=
      (div_le_one (by norm_num)).mpr hq1
    calc A * (rr.copay_percentage / 100) ≤ A * 1 :=
          mul_le_mul_of_nonneg_left hfrac hA0
      _ = A := mul_one A
  have hcp0 : 0 ≤ round2 (A * (rr.copay_percentage / 100)) :=
    round2_nonneg hraw0
  have hcple : round2 (A * (rr.copay_percentage / 100)) ≤
      A * (rr.copay_percentage / 100) + 1 / 200 := round2_le _
  -- the pre-rounding final amount
  have hf_low : -(1 / 200) ≤ A - round2 (A * (rr.copay_percentage / 100)) := by
    linarith
  have hf_le : A - round2 (A * (rr.copay_percentage / 100)) ≤ A := by
    linarith
  have happ' : rr.approved_amount =
      round2 (A - round2 (A * (rr.copay_percentage / 100))) := happ
  refine ⟨?_, ?_, ?_, ?_⟩
  · rw [happ']
    calc (0 : ℚ) = round2 (-(1 / 200)) := round2_neg_half_paise.symm
      _ ≤ _ := round2_mono hf_low
  · rw [happ']
    obtain ⟨k, hk⟩ := hca
    calc round2 (A - round2 (A * (rr.copay_percentage / 100))) ≤ round2 ca :=
          round2_mono (le_trans hf_le hAca)
      _ = ca := by rw [hk, round2_paise]
  · rw [happ']
    obtain ⟨k, hk⟩ := hpc
    calc round2 (A - round2 (A * (rr.copay_percentage / 100))) ≤
          round2 p.per_claim_limit := round2_mono (le_trans hf_le hApcl)
      _ = p.per_claim_limit := by rw [hk, round2_paise]
  · rw [happ']
    exact round2_round2 _

/-- The synthesizer's approved amount is either forced to zero (hard
rejection tier) or the two-decimal rounding of the limit-stage amount. -/
theorem make_decision_approved_amount_cases (currentYear : ℤ) (claim_id : String)
    (claim_data : ClaimData) (extraction_result : ExtractionResult)
    (eligibility_result : EligResult) (coverage_result : CovResult)
    (limit_result : LimitResult) :
    (make_decision currentYear claim_id claim_data extraction_result
      eligibility_result coverage_result limit_result).approved_amount = 0 ∨
    (make_decision currentYear claim_id claim_data extraction_result
      eligibility_result coverage_result limit_result).approved_amount =
      round2 limit_result.approved_amount := by
  unfold make_decision
  dsimp only
  split_ifs
  · exact Or.inl round2_zero
  · exact Or.inr rfl

/-- Claim C1 (amended): on the deterministic pipeline (assistive agent
absent), with a non-negative excluded amount at the limit stage, a
consultation co-pay percentage in [0, 100], and claim amount and
per-claim limit that are non-negative whole-paise amounts, every
produced AdjudicationResult satisfies
0 <= approved_amount <= claim_amount and
approved_amount <= per_claim_limit. -/
theorem pipeline_approved_amount_bounds (p : Policy) (e : Env)
    (claim_data : ClaimData) (extraction_result : ExtractionResult)
    (r : AdjudicationResult)
    (hAgent : e.limitAgent = none)
    (hca0 : 0 ≤ claim_data.claim_amount)
    (hca : ∃ k : ℤ, claim_data.claim_amount = (k : ℚ) / 100)
    (hpc0 : 0 ≤ p.per_claim_limit)
    (hpc : ∃ k : ℤ, p.per_claim_limit = (k : ℚ) / 100)
    (hpct0 : 0 ≤ p.consultation_copay_percentage)
    (hpct1 : p.consultation_copay_percentage ≤ 100)
    (hexcl : 0 ≤ excluded_amount_from (claim_data.documents.bill.getD {})
      (validate_coverage_with_agent p claim_data extraction_result).excluded_items)
    (hrun : workflow_process p e claim_data extraction_result = some r) :
    0 ≤ r.approved_amount ∧ r.approved_amount ≤ claim_data.claim_amount ∧
      r.approved_amount ≤ p.per_claim_limit := by
  unfold workflow_process at hrun
  dsimp only at hrun
  split_ifs at hrun
  all_goals try (cases hrun; exact ⟨le_refl 0, hca0, hpc0⟩)
  split at hrun
  · cases hrun
  · next lim heq =>
    cases hrun
    unfold make_decision_with_agent
    obtain ⟨rr, hfull, happr⟩ := calculate_limits_with_agent_rule_approved
      p e claim_data _ lim hAgent heq
    obtain ⟨hb0, hbca, hbpc, hbfix⟩ := calculate_limits_full_bounds
      p _ _ _ _ _ _ rr hfull hexcl hca0 hca hpc0 hpc hpct0 hpct1
    rcases make_decision_approved_amount_cases e.currentYear
      (pyOrS claim_data.claim_id (generate_claim_id e)) claim_data
      extraction_result (check_eligibility_with_agent p e claim_data
        extraction_result)
      (validate_coverage_with_agent p claim_data extraction_result) lim
      with hz | hr2
    · rw [hz]
      exact ⟨le_refl 0, hca0, hpc0⟩
    · rw [hr2, happr, hbfix]
      exact ⟨hb0, hbca, hbpc⟩

/-! ## Claim C3: missing documents reject before any rule stage -/

/-- Claim C3: when the extraction result lacks the prescription or the
bill, the workflow returns the terminal REJECTED result with reason
MISSING_DOCUMENTS, amount 0 and confidence 1, and carries none of the
eligibility, coverage, limit or fraud sub-results (those stages are
never invoked by the terminal constructors). -/
theorem missing_documents_terminal (p : Policy) (e : Env) (claim_data : ClaimData)
    (extraction_result : ExtractionResult)
    (h : extraction_result.has_prescription = false ∨
      extraction_result.has_bill = false) :
    ∃ r, workflow_process p e claim_data extraction_result = some r ∧
      r.decision = .REJECTED ∧
      r.rejection_reasons = ["MISSING_DOCUMENTS"] ∧
      r.approved_amount = 0 ∧
      r.confidence_score = 1 ∧
      r.eligibility_result = none ∧ r.coverage_result = none ∧
      r.limit_result = none ∧ r.fraud_result = none := by
  unfold workflow_process
  cases hp : extraction_result.has_prescription with
  | false =>
    exact ⟨_, rfl, rfl, rfl, rfl, rfl, rfl, rfl, rfl, rfl⟩
  | true =>
    rcases h with h | h
    · rw [hp] at h
      cases h
    · rw [h]
      exact ⟨_, rfl, rfl, rfl, rfl, rfl, rfl, rfl, rfl, rfl⟩

/-- Witness for C3 at a concrete claim without a prescription. -/
theorem missing_documents_terminal_witness :
    (({ has_prescription := false } : ExtractionResult).has_prescription = false) ∧
    (∃ r, workflow_process defaultPolicy
        ⟨"20250101000000", "AAAAAAAA", ⟨2025, 1, 1⟩, 2025, none, ""⟩ {}
        { has_prescription := false } = some r ∧
      r.decision = .REJECTED ∧
      r.rejection_reasons = ["MISSING_DOCUMENTS"] ∧
      r.approved_amount = 0 ∧
      r.confidence_score = 1 ∧
      r.eligibility_result = none ∧ r.coverage_result = none ∧
      r.limit_result = none ∧ r.fraud_result = none) :=
  ⟨rfl, missing_documents_terminal defaultPolicy
    ⟨"20250101000000", "AAAAAAAA", ⟨2025, 1, 1⟩, 2025, none, ""⟩ {}
    { has_prescription := false } (Or.inl rfl)⟩

/-- Witness for C1 on the viral-fever scenario run. -/
theorem pipeline_approved_amount_bounds_witness :
    0 ≤ wRes.approved_amount ∧ wRes.approved_amount ≤ claimC6.claim_amount ∧
      wRes.approved_amount ≤ defaultPolicy.per_claim_limit :=
  pipeline_approved_amount_bounds defaultPolicy envC6 claimC6 extC6 wRes rfl
    (by show (0 : ℚ) ≤ 1500; norm_num)
    ⟨150000, by show (1500 : ℚ) = 150000 / 100; norm_num⟩
    (by show (0 : ℚ) ≤ 5000; norm_num)
    ⟨500000, by show (5000 : ℚ) = 500000 / 100; norm_num⟩
    (by show (0 : ℚ) ≤ 10; norm_num)
    (by show (10 : ℚ) ≤ 100; norm_num)
    (le_of_eq (show (0 : ℚ) = excluded_amount_from
      (claimC6.documents.bill.getD {})
      (validate_coverage_with_agent defaultPolicy claimC6 extC6).excluded_items
      from by with_unfolding_all rfl))
    (by with_unfolding_all rfl)

/-- Counterexample to C1 as stated: with a zero consultation co-pay
percentage (inside [0, 100]) and zero excluded amount, the claim amount
1000.006 is approved as 1000.01, which exceeds the claim amount — the
two-decimal rounding can push the approved amount above a sub-paise
claim amount. -/
theorem pipeline_approved_amount_bounds_counterexample :
    (workflow_process pC1 envC1 claimC1 extC1).map (fun r => r.approved_amount) =
      some 1000.01 ∧
    claimC1.claim_amount = 1000.006 ∧
    (0 : ℚ) ≤ pC1.consultation_copay_percentage ∧
    pC1.consultation_copay_percentage ≤ 100 ∧
    excluded_amount_from (claimC1.documents.bill.getD {})
      (validate_coverage_with_agent pC1 claimC1 extC1).excluded_items = 0 ∧
    ¬ ((1000.01 : ℚ) ≤ 1000.006) :=
  ⟨by with_unfolding_all rfl, by with_unfolding_all rfl,
   by show (0 : ℚ) ≤ 0; norm_num, by show (0 : ℚ) ≤ 100; norm_num,
   by with_unfolding_all rfl, by norm_num⟩

/-! ## Claim C6: the viral-fever scenario -/

/-- Claim C6: the 1500-rupee viral-fever claim (member joined more than
30 days before treatment, non-network hospital, no exclusions, no fraud
signals) is APPROVED with amount min(1500, 5000, remaining annual,
consultation sub-limit) minus the 10 percent co-pay on that base, i.e.
1350. -/
theorem scenario_viral_fever_approved :
    (workflow_process defaultPolicy envC6 claimC6 extC6).map
      (fun r => (r.decision, r.approved_amount)) = some (.APPROVED, 1350) ∧
    (1350 : ℚ) =
      round2 (min (min (min 1500 defaultPolicy.per_claim_limit)
          (defaultPolicy.annual_limit - 0)) defaultPolicy.consultation_sub_limit -
        round2 (min (min (min (1500 : ℚ) defaultPolicy.per_claim_limit)
          (defaultPolicy.annual_limit - 0)) defaultPolicy.consultation_sub_limit *
          (10 / 100))) :=
  ⟨by with_unfolding_all rfl, by with_unfolding_all rfl⟩

/-! ## Claim C8: purity of the pipeline across runs -/

theorem pyOrS_of_truthy {x : Option String} (h : strTruthy x = true)
    (d1 d2 : String) : pyOrS x d1 = pyOrS x d2 := by
  cases x with
  | none => simp [strTruthy] at h
  | some s =>
    have hs : s ≠ "" := of_decide_eq_true h
    unfold pyOrS
    dsimp only
    rw [if_neg hs, if_neg hs]

theorem check_eligibility_with_agent_env_agnostic (p : Policy) (e1 e2 : Env)
    (claim_data : ClaimData) (extracted_data : ExtractionResult)
    (h : strTruthy claim_data.member_join_date = true) :
    check_eligibility_with_agent p e1 claim_data extracted_data =
      check_eligibility_with_agent p e2 claim_data extracted_data := by
  unfold check_eligibility_with_agent
  dsimp only
  simp only [if_pos h]

theorem calculate_limits_with_agent_env_agnostic (p : Policy) (e1 e2 : Env)
    (claim_data : ClaimData) (cov : CovResult)
    (h : limit_agent_branch p claim_data cov = false) :
    calculate_limits_with_agent p e1 claim_data cov =
      calculate_limits_with_agent p e2 claim_data cov := by
  unfold limit_agent_branch at h
  unfold calculate_limits_with_agent
  dsimp only at h ⊢
  cases hm : calculate_limits p claim_data.claim_amount (some cov.category)
      claim_data.hospital
      (excluded_amount_from (claim_data.documents.bill.getD {})
        cov.excluded_items)
      claim_data.previous_claims_ytd (some cov.applicable_sub_limit) with
  | belowMin r => rfl
  | full r =>
    rw [hm] at h
    dsimp only at h
    dsimp only
    split_ifs with h1 h2
    · rfl
    · exfalso
      simp only [Bool.not_eq_true] at h1
      rw [h1] at h
      simp only [Bool.not_false, Bool.true_and] at h
      rw [h] at h2
      cases h2
    · rfl

/-- Claim C8 (amended): with the claim id and member join date supplied,
equal current years, and the limit stage's assistive-agent branch not
taken, two runs of the pipeline in different environments (different
timestamps, UUID draws, agent replies) give the same AdjudicationResult;
purity fails only through those environmental inputs. -/
theorem pipeline_env_independent (p : Policy) (e1 e2 : Env)
    (claim_data : ClaimData) (extraction_result : ExtractionResult)
    (hid : strTruthy claim_data.claim_id = true)
    (hjoin : strTruthy claim_data.member_join_date = true)
    (hyear : e1.currentYear = e2.currentYear)
    (hagent : limit_agent_branch p claim_data
      (validate_coverage_with_agent p claim_data extraction_result) = false) :
    workflow_process p e1 claim_data extraction_result =
      workflow_process p e2 claim_data extraction_result := by
  unfold workflow_process
  dsimp only
  rw [pyOrS_of_truthy hid (generate_claim_id e1) (generate_claim_id e2),
    check_eligibility_with_agent_env_agnostic p e1 e2 claim_data
      extraction_result hjoin,
    calculate_limits_with_agent_env_agnostic p e1 e2 claim_data _ hagent,
    hyear]

/-- Witness for C8 on the viral-fever scenario with a fixed claim id:
two environments differing in timestamp and UUID give identical
results. -/
theorem pipeline_env_independent_witness :
    strTruthy claimWithId.claim_id = true ∧
    strTruthy claimWithId.member_join_date = true ∧
    envC6.currentYear = envC6b.currentYear ∧
    limit_agent_branch defaultPolicy claimWithId
      (validate_coverage_with_agent defaultPolicy claimWithId extC6) = false ∧
    workflow_process defaultPolicy envC6 claimWithId extC6 =
      workflow_process defaultPolicy envC6b claimWithId extC6 :=
  ⟨by with_unfolding_all rfl, by with_unfolding_all rfl, rfl,
   by with_unfolding_all rfl,
   pipeline_env_independent defaultPolicy envC6 envC6b claimWithId extC6
     (by with_unfolding_all rfl) (by with_unfolding_all rfl) rfl
     (by with_unfolding_all rfl)⟩

/-- Counterexample to C8 as stated: on identical claim input omitting
the claim_id and identical policy configuration, two runs drawing
different UUIDs return different AdjudicationResults (differing claim
ids), so the pipeline is not a pure function of claim input and policy
alone. -/
theorem pipeline_not_pure_counterexample :
    workflow_process defaultPolicy envA claimNoId extNoPresc ≠
      workflow_process defaultPolicy envB claimNoId extNoPresc ∧
    (workflow_process defaultPolicy envA claimNoId extNoPresc).map
      (fun r => r.claim_id) = some "CLM_20250101000000_AAAAAAAA" ∧
    (workflow_process defaultPolicy envB claimNoId extNoPresc).map
      (fun r => r.claim_id) = some "CLM_20250101000000_BBBBBBBB" :=
  ⟨of_decide_eq_true (by with_unfolding_all rfl),
   by with_unfolding_all rfl, by with_unfolding_all rfl⟩

end OPD
